import Mathlib

/-!
# Linear gradient brush (`lineargradientbrush.c`)

A shallow embedding of the linear gradient brush of libgdiplus and the
properties of its blend curve, preset ramp, colour-stop emission, paint
construction, cloning and rectangle derivation.

Modelling conventions.

* In the first sections C `float` and `double` values are exact rationals
  (`ℚ`): they state which formula the code evaluates, and rounding, infinities
  and NaN are outside them.  The section "Floating-point numbers" reads
  `gdip_set_rect` and `add_color_stops_from_blend` once more with every
  operation rounded as IEEE 754 prescribes; what is said about the numbers the
  code ends up with is said there.
* `ARGB` is a natural number; the source only ever looks at it through
  `>> k` and `& 0xFF`, which are kept as they are.
* A pointer to an array (`float *`, `ARGB *`) is the map from index to the cell
  stored there; a store `p[i] = v` updates that map at `i`, and two array
  fields never share cells.  A pointer that may be `NULL` is an `Option`.
  Releasing storage (`GdipFree`) changes no value and is therefore invisible
  in these sections: whether a pointer that is stored through or released
  still owns storage (or ever did) is outside them.  It is looked at in the
  sections "Initialisation with the pointers kept as addresses" and "The brush
  with its arrays kept in allocated storage", which read the initialisation,
  the constructors from a rectangle and the two setters with the pointers as
  the addresses they hold and with a record of the allocated blocks.
* The result of each `GdipAlloc` is an argument of the function that calls it:
  `none` is a failed allocation, `some g` is fresh storage with initial
  contents `g`.
* A function that writes through its brush argument returns the status
  together with the brush as it is after the call.
-/

namespace LinearGradient

/-! ## Data model -/

/-- Modelled from the spec: `ARGB` (declared in the absent `gdip.h`) is a 32-bit
packed colour, 8 bits each for alpha, red, green and blue, most significant
byte first. -/
abbrev ARGB := Nat

/-- Modelled from the spec: the status codes of `gdip.h` (absent) that an
operation of this file returns. -/
inductive GpStatus where
  | Ok
  | InvalidParameter
  | OutOfMemory
  | NotImplemented
  deriving DecidableEq, Repr

/-- Modelled from the spec: the wrap modes of `gdip.h` (absent).  A C enum can
hold any integer, so a value that is none of the five enumerators is kept as
`other`. -/
inductive GpWrapMode where
  | WrapModeTile
  | WrapModeTileFlipX
  | WrapModeTileFlipY
  | WrapModeTileFlipXY
  | WrapModeClamp
  | other (code : Int)
  deriving DecidableEq, Repr

/-- Modelled from the spec: the orientation enum of `gdip.h` (absent). -/
inductive LinearGradientMode where
  | LinearGradientModeHorizontal
  | LinearGradientModeVertical
  | LinearGradientModeForwardDiagonal
  | LinearGradientModeBackwardDiagonal
  | other (code : Int)
  deriving DecidableEq, Repr

/-- Modelled from the spec: `GpPointF` of `gdip.h` (absent), a 2-D point. -/
structure GpPointF where
  X : ℚ
  Y : ℚ
  deriving DecidableEq

/-- Modelled from the spec: `GpPoint` of `gdip.h` (absent), an integer point. -/
structure GpPoint where
  X : Int
  Y : Int
  deriving DecidableEq

/-- Modelled from the spec: `GpRectF` of `gdip.h` (absent), an axis-aligned
rectangle. -/
structure GpRectF where
  X : ℚ
  Y : ℚ
  Width : ℚ
  Height : ℚ
  deriving DecidableEq

/-- Modelled from the spec: `GpRect` of `gdip.h` (absent), an integer
rectangle. -/
structure GpRect where
  X : Int
  Y : Int
  Width : Int
  Height : Int
  deriving DecidableEq

/-- The `gdip_set_rect` of the source: the rectangle derived from the two
endpoints of the gradient line.  `rect` is the rectangle written to (`none` for
a null pointer, which is left alone). -/
def gdip_set_rect (rect : Option GpRectF) (x1 y1 x2 y2 : ℚ) : Option GpRectF :=
  match rect with
  | none => none
  | some r =>
    if x1 = x2 then
      let r := { r with Height := if y1 > y2 then y1 - y2 else y2 - y1 }
      let r := { r with Width := r.Height }
      let r := { r with X := x1 - r.Height / 2 }
      some { r with Y := if y1 < y2 then y1 else y2 }
    else if y1 = y2 then
      let r := { r with Width := if x1 > x2 then x1 - x2 else x2 - x1 }
      let r := { r with Height := r.Width }
      let r := { r with X := if x1 < x2 then x1 else x2 }
      some { r with Y := y1 - r.Width / 2 }
    else
      let r := { r with Width := if x1 > x2 then x1 - x2 else x2 - x1 }
      let r := { r with Height := if y1 > y2 then y1 - y2 else y2 - y1 }
      let r := { r with X := if x1 < x2 then x1 else x2 }
      some { r with Y := if y1 < y2 then y1 else y2 }

/-- The `struct _Blend` of the source: two parallel arrays and the number of
control points (`-1` when the curve is disabled). -/
structure Blend where
  factors : Nat → ℚ
  positions : Nat → ℚ
  count : Int

/-- The `struct _InterpolationColors` of the source: two parallel arrays and
the number of control points (`-1` when the ramp is disabled). -/
structure InterpolationColors where
  colors : Nat → ARGB
  positions : Nat → ℚ
  count : Int

/-- Modelled from the spec: one colour stop handed to the fill engine by
`cairo_pattern_add_color_stop` (absent), an offset and four channel values. -/
structure ColorStop where
  offset : ℚ
  red : ℚ
  green : ℚ
  blue : ℚ
  alpha : ℚ
  deriving DecidableEq

/-- Modelled from the spec: the `cairo_pattern_t` of the fill engine (absent),
seen as the ordered list of the colour stops it was given. -/
abbrev cairo_pattern_t := List ColorStop

/-- Modelled from the spec: `cairo_pattern_add_color_stop` (absent) appends one
stop, its arguments in the order offset, red, green, blue, alpha. -/
def cairo_pattern_add_color_stop (pattern : cairo_pattern_t)
    (offset red green blue alpha : ℚ) : cairo_pattern_t :=
  pattern ++ [⟨offset, red, green, blue, alpha⟩]

/-- The `for` loop of `add_color_stops_from_blend`: `todo` iterations are left,
the next one at `index`. -/
def add_color_stops_from_blend_loop (blend : Blend) (sr sg sb sa er eg eb ea : ℚ) :
    Nat → Nat → cairo_pattern_t → cairo_pattern_t
  | 0, _, pattern => pattern
  | todo + 1, index, pattern =>
    let factor := blend.factors index
    let offset := blend.positions index
    add_color_stops_from_blend_loop blend sr sg sb sa er eg eb ea todo (index + 1)
      (cairo_pattern_add_color_stop pattern offset
        ((sr * factor) + (er * (1 - factor)))
        ((sg * factor) + (eg * (1 - factor)))
        ((sb * factor) + (eb * (1 - factor)))
        ((sa * factor) + (ea * (1 - factor))))

/-- The `add_color_stops_from_blend` of the source; `colors` is the pair
`lineColors [0]`, `lineColors [1]`. -/
def add_color_stops_from_blend (pattern : cairo_pattern_t) (blend : Blend)
    (colors : ARGB × ARGB) : cairo_pattern_t :=
  let sa : ℚ := (((colors.1 >>> 24) &&& 0xFF : Nat) : ℚ)
  let sr : ℚ := (((colors.1 >>> 16) &&& 0xFF : Nat) : ℚ)
  let sg : ℚ := (((colors.1 >>> 8) &&& 0xFF : Nat) : ℚ)
  let sb : ℚ := ((colors.1 &&& 0xFF : Nat) : ℚ)
  let ea : ℚ := (((colors.2 >>> 24) &&& 0xFF : Nat) : ℚ)
  let er : ℚ := (((colors.2 >>> 16) &&& 0xFF : Nat) : ℚ)
  let eg : ℚ := (((colors.2 >>> 8) &&& 0xFF : Nat) : ℚ)
  let eb : ℚ := ((colors.2 &&& 0xFF : Nat) : ℚ)
  add_color_stops_from_blend_loop blend sr sg sb sa er eg eb ea blend.count.toNat 0 pattern

/-- The `for` loop of `add_color_stops_from_interpolation_colors`: `todo`
iterations are left, the next one at `index`. -/
def add_color_stops_from_interpolation_colors_loop (presetColors : InterpolationColors) :
    Nat → Nat → cairo_pattern_t → cairo_pattern_t
  | 0, _, pattern => pattern
  | todo + 1, index, pattern =>
    let color := presetColors.colors index
    let a : ℚ := (((color >>> 24) &&& 0xFF : Nat) : ℚ)
    let r : ℚ := (((color >>> 16) &&& 0xFF : Nat) : ℚ)
    let g : ℚ := (((color >>> 8) &&& 0xFF : Nat) : ℚ)
    let b : ℚ := ((color &&& 0xFF : Nat) : ℚ)
    let offset := presetColors.positions index
    add_color_stops_from_interpolation_colors_loop presetColors todo (index + 1)
      (cairo_pattern_add_color_stop pattern offset r g b a)

/-- The `add_color_stops_from_interpolation_colors` of the source. -/
def add_color_stops_from_interpolation_colors (pattern : cairo_pattern_t)
    (presetColors : InterpolationColors) : cairo_pattern_t :=
  add_color_stops_from_interpolation_colors_loop presetColors presetColors.count.toNat 0 pattern

/-- Modelled from the spec: the affine transform (`GpMatrix`, a
`cairo_matrix_t`, absent), an opaque object of six coefficients. -/
structure GpMatrix where
  xx : ℚ
  yx : ℚ
  xy : ℚ
  yy : ℚ
  x0 : ℚ
  y0 : ℚ
  deriving DecidableEq

/-- Modelled from the spec: `cairo_matrix_create` (absent) yields the identity
transform. -/
def cairo_matrix_create : GpMatrix := ⟨1, 0, 0, 1, 0, 0⟩

/-- Modelled from the spec: the order argument of the transform operations
(`gdip.h`, absent). -/
inductive GpMatrixOrder where
  | MatrixOrderPrepend
  | MatrixOrderAppend
  deriving DecidableEq, Repr

/-- Modelled from the spec: the brush types of `gdip.h` (absent); the class
table of this file is the one of type `BrushTypeLinearGradient`. -/
inductive GpBrushType where
  | BrushTypeLinearGradient
  | other (code : Int)
  deriving DecidableEq, Repr

/-- Modelled from the spec: the base brush of `gdip.h` (absent), which holds
the class table the brush dispatches through (`none` before it is set). -/
structure GpBrush where
  vtable : Option GpBrushType
  deriving DecidableEq

/-- The single class table `vtable` of the source, named by its type. -/
def vtable : GpBrushType := GpBrushType.BrushTypeLinearGradient

/-- Modelled from the spec: `gdip_brush_init` (absent) records the class
table in the base brush. -/
def gdip_brush_init (brush : GpBrush) (vtable : GpBrushType) : GpBrush :=
  { brush with vtable := some vtable }

/-- The `GpLineGradient` of `lineargradientbrush.h` (absent), with the fields
the source reads and writes.  `matrix`, `presetColors` and `blend` are pointers
the source dereferences without a check, so they are held by value; `rectangle`
is `NULL` between `gdip_linear_gradient_init` and the end of a constructor. -/
structure GpLineGradient where
  base : GpBrush
  wrapMode : GpWrapMode
  matrix : GpMatrix
  rectangle : Option GpRectF
  gammaCorrection : Bool
  angle : ℚ
  isAngleScalable : Bool
  lineColors : ARGB × ARGB
  points : GpPointF × GpPointF
  presetColors : InterpolationColors
  blend : Blend

open GpStatus GpWrapMode LinearGradientMode

/-- The `gdip_linear_gradient_init` of the source.  `linear` is the storage
being initialised; `presetColors` and `blend` are the two blocks the function
obtains from `GdipAlloc` (it uses them without a check) with the contents they
have on arrival.  The source assigns neither `blend->factors` nor
`blend->positions` before it stores through them: the two stores update cell 0
of whatever arrays the fresh block stands for. -/
def gdip_linear_gradient_init (linear : GpLineGradient)
    (presetColors : InterpolationColors) (blend : Blend) : GpLineGradient :=
  let linear := { linear with base := gdip_brush_init linear.base vtable }
  let linear := { linear with wrapMode := WrapModeTile }
  let linear := { linear with matrix := cairo_matrix_create }
  let linear := { linear with rectangle := none }
  let linear := { linear with gammaCorrection := false }
  let linear := { linear with angle := 0 }
  let linear := { linear with isAngleScalable := false }
  let linear := { linear with presetColors := presetColors }
  let linear := { linear with presetColors := { linear.presetColors with count := -1 } }
  let linear := { linear with blend := blend }
  let linear := { linear with blend := { linear.blend with count := 1 } }
  let linear := { linear with
    blend := { linear.blend with factors := Function.update linear.blend.factors 0 1 } }
  { linear with
    blend := { linear.blend with positions := Function.update linear.blend.positions 0 0 } }

/-- The `gdip_linear_gradient_new` of the source; `result` is what `GdipAlloc`
returns for the brush itself. -/
def gdip_linear_gradient_new (result : Option GpLineGradient)
    (presetColors : InterpolationColors) (blend : Blend) : Option GpLineGradient :=
  match result with
  | some r => some (gdip_linear_gradient_init r presetColors blend)
  | none => none

/-- The `GdipCreateLineBrush` of the source.  `lineGradient` is the slot the
new brush is stored in (`none` for a null pointer) and is returned as it is
after the call; `rect`, `result`, `presetColors` and `blend` are the
allocations. -/
def GdipCreateLineBrush (point1 point2 : Option GpPointF) (color1 color2 : ARGB)
    (wrapMode : GpWrapMode) (lineGradient : Option (Option GpLineGradient))
    (rect : Option GpRectF) (result : Option GpLineGradient)
    (presetColors : InterpolationColors) (blend : Blend) :
    GpStatus × Option (Option GpLineGradient) :=
  match point1, point2, lineGradient with
  | none, _, _ => (InvalidParameter, lineGradient)
  | some _, none, _ => (InvalidParameter, lineGradient)
  | some _, some _, none => (InvalidParameter, lineGradient)
  | some point1, some point2, some _ =>
    match rect with
    | none => (OutOfMemory, lineGradient)
    | some _ =>
      match gdip_linear_gradient_new result presetColors blend with
      | none => (OutOfMemory, lineGradient)
      | some linear =>
        let rect := gdip_set_rect rect point1.X point1.Y point2.X point2.Y
        let linear := { linear with wrapMode := wrapMode }
        let linear := { linear with lineColors := (color1, linear.lineColors.2) }
        let linear := { linear with lineColors := (linear.lineColors.1, color2) }
        let linear := { linear with points := (point1, linear.points.2) }
        let linear := { linear with points := (linear.points.1, point2) }
        let linear := { linear with rectangle := rect }
        (Ok, some (some linear))

/-- The `GdipCreateLineBrushI` of the source. -/
def GdipCreateLineBrushI (point1 point2 : Option GpPoint) (color1 color2 : ARGB)
    (wrapMode : GpWrapMode) (lineGradient : Option (Option GpLineGradient))
    (rect : Option GpRectF) (result : Option GpLineGradient)
    (presetColors : InterpolationColors) (blend : Blend) :
    GpStatus × Option (Option GpLineGradient) :=
  match point1, point2 with
  | none, _ => (InvalidParameter, lineGradient)
  | some _, none => (InvalidParameter, lineGradient)
  | some point1, some point2 =>
    let pt1 : GpPointF := ⟨point1.X, point1.Y⟩
    let pt2 : GpPointF := ⟨point2.X, point2.Y⟩
    GdipCreateLineBrush (some pt1) (some pt2) color1 color2 wrapMode lineGradient
      rect result presetColors blend

/-- The `GdipCreateLineBrushFromRectWithAngle` of the source; `rectangle` is
the allocation that will hold the copy of `rect`. -/
def GdipCreateLineBrushFromRectWithAngle (rect : Option GpRectF) (color1 color2 : ARGB)
    (angle : ℚ) (isAngleScalable : Bool) (wrapMode : GpWrapMode)
    (lineGradient : Option (Option GpLineGradient))
    (result : Option GpLineGradient) (presetColors : InterpolationColors) (blend : Blend)
    (rectangle : Option GpRectF) : GpStatus × Option (Option GpLineGradient) :=
  match rect, lineGradient with
  | none, _ => (InvalidParameter, lineGradient)
  | some _, none => (InvalidParameter, lineGradient)
  | some rect, some _ =>
    match gdip_linear_gradient_new result presetColors blend with
    | none => (OutOfMemory, lineGradient)
    | some linear =>
      match rectangle with
      | none => (OutOfMemory, lineGradient)
      | some _ =>
        let linear := { linear with rectangle := some rect }
        let linear := { linear with wrapMode := wrapMode }
        let linear := { linear with lineColors := (color1, linear.lineColors.2) }
        let linear := { linear with lineColors := (linear.lineColors.1, color2) }
        let linear := { linear with angle := angle }
        let linear := { linear with isAngleScalable := isAngleScalable }
        let linear := { linear with
          points := ({ linear.points.1 with X := rect.X }, linear.points.2) }
        let linear := { linear with
          points := ({ linear.points.1 with Y := rect.Y + rect.Height / 2 }, linear.points.2) }
        let linear := { linear with
          points := (linear.points.1, { linear.points.2 with X := rect.X + rect.Width }) }
        let linear := { linear with
          points := (linear.points.1, { linear.points.2 with Y := linear.points.1.Y }) }
        (Ok, some (some linear))

/-- The `GdipCreateLineBrushFromRectWithAngleI` of the source. -/
def GdipCreateLineBrushFromRectWithAngleI (rect : Option GpRect) (color1 color2 : ARGB)
    (angle : ℚ) (isAngleScalable : Bool) (wrapMode : GpWrapMode)
    (lineGradient : Option (Option GpLineGradient))
    (result : Option GpLineGradient) (presetColors : InterpolationColors) (blend : Blend)
    (rectangle : Option GpRectF) : GpStatus × Option (Option GpLineGradient) :=
  match rect with
  | none => (InvalidParameter, lineGradient)
  | some rect =>
    let rectf : GpRectF := ⟨rect.X, rect.Y, rect.Width, rect.Height⟩
    GdipCreateLineBrushFromRectWithAngle (some rectf) color1 color2 angle isAngleScalable
      wrapMode lineGradient result presetColors blend rectangle

/-- The `GdipCreateLineBrushFromRect` of the source. -/
def GdipCreateLineBrushFromRect (rect : Option GpRectF) (color1 color2 : ARGB)
    (mode : LinearGradientMode) (wrapMode : GpWrapMode)
    (lineGradient : Option (Option GpLineGradient))
    (result : Option GpLineGradient) (presetColors : InterpolationColors) (blend : Blend)
    (rectangle : Option GpRectF) : GpStatus × Option (Option GpLineGradient) :=
  let angle : ℚ :=
    match mode with
    | LinearGradientModeHorizontal => 0
    | LinearGradientModeVertical => 90
    | LinearGradientModeForwardDiagonal => 45
    | LinearGradientModeBackwardDiagonal => 135
    | LinearGradientMode.other _ => 0
  GdipCreateLineBrushFromRectWithAngle rect color1 color2 angle false wrapMode lineGradient
    result presetColors blend rectangle

/-- The `GdipCreateLineBrushFromRectI` of the source. -/
def GdipCreateLineBrushFromRectI (rect : Option GpRect) (color1 color2 : ARGB)
    (mode : LinearGradientMode) (wrapMode : GpWrapMode)
    (lineGradient : Option (Option GpLineGradient))
    (result : Option GpLineGradient) (presetColors : InterpolationColors) (blend : Blend)
    (rectangle : Option GpRectF) : GpStatus × Option (Option GpLineGradient) :=
  match rect with
  | none => (InvalidParameter, lineGradient)
  | some rect =>
    let rectf : GpRectF := ⟨rect.X, rect.Y, rect.Width, rect.Height⟩
    GdipCreateLineBrushFromRect (some rectf) color1 color2 mode wrapMode lineGradient
      result presetColors blend rectangle

/-- The copy loop of `GdipSetLineBlend`: `todo` iterations are left, the next
one at `index`. -/
def GdipSetLineBlend_loop (blend positions : Nat → ℚ) :
    Nat → Nat → GpLineGradient → GpLineGradient
  | 0, _, brush => brush
  | todo + 1, index, brush =>
    let brush := { brush with
      blend := { brush.blend with
        factors := Function.update brush.blend.factors index (blend index) } }
    let brush := { brush with
      blend := { brush.blend with
        positions := Function.update brush.blend.positions index (positions index) } }
    GdipSetLineBlend_loop blend positions todo (index + 1) brush

/-- The part of `GdipSetLineBlend` after the storage has been settled: the
copy loop, the new count, and the disabling of the preset ramp. -/
def GdipSetLineBlend_store (brush : GpLineGradient) (blend positions : Nat → ℚ)
    (count : Int) : GpLineGradient :=
  let brush := GdipSetLineBlend_loop blend positions count.toNat 0 brush
  let brush := { brush with blend := { brush.blend with count := count } }
  if brush.presetColors.count ≠ -1 then
    { brush with presetColors := { brush.presetColors with count := -1 } }
  else
    brush

/-- The `GdipSetLineBlend` of the source.  `blendFactors` and `blendPositions`
are what the two `GdipAlloc` calls return when they are reached. -/
def GdipSetLineBlend (brush : Option GpLineGradient) (blend positions : Option (Nat → ℚ))
    (count : Int) (blendFactors blendPositions : Option (Nat → ℚ)) :
    GpStatus × Option GpLineGradient :=
  match brush, blend, positions with
  | none, _, _ => (InvalidParameter, brush)
  | some _, none, _ => (InvalidParameter, brush)
  | some _, some _, none => (InvalidParameter, brush)
  | some b, some blend, some positions =>
    if ¬ (count ≥ 0) then (InvalidParameter, brush)
    else if b.blend.count ≠ count then
      match blendFactors with
      | none => (OutOfMemory, brush)
      | some blendFactors =>
        match blendPositions with
        | none => (OutOfMemory, brush)
        | some blendPositions =>
          let b := { b with blend := { b.blend with factors := blendFactors } }
          let b := { b with blend := { b.blend with positions := blendPositions } }
          (Ok, some (GdipSetLineBlend_store b blend positions count))
    else
      (Ok, some (GdipSetLineBlend_store b blend positions count))

/-- The `GdipSetLineGammaCorrection` of the source. -/
def GdipSetLineGammaCorrection (brush : Option GpLineGradient) (useGammaCorrection : Bool) :
    GpStatus × Option GpLineGradient :=
  match brush with
  | none => (InvalidParameter, brush)
  | some b => (Ok, some { b with gammaCorrection := useGammaCorrection })

/-- The copy loop of `GdipSetLinePresetBlend`: `todo` iterations are left, the
next one at `index`. -/
def GdipSetLinePresetBlend_loop (blend : Nat → ARGB) (positions : Nat → ℚ) :
    Nat → Nat → GpLineGradient → GpLineGradient
  | 0, _, brush => brush
  | todo + 1, index, brush =>
    let brush := { brush with
      presetColors := { brush.presetColors with
        colors := Function.update brush.presetColors.colors index (blend index) } }
    let brush := { brush with
      presetColors := { brush.presetColors with
        positions := Function.update brush.presetColors.positions index (positions index) } }
    GdipSetLinePresetBlend_loop blend positions todo (index + 1) brush

/-- The part of `GdipSetLinePresetBlend` after the storage has been settled:
the copy loop, the new count, and the disabling of the blend curve. -/
def GdipSetLinePresetBlend_store (brush : GpLineGradient) (blend : Nat → ARGB)
    (positions : Nat → ℚ) (count : Int) : GpLineGradient :=
  let brush := GdipSetLinePresetBlend_loop blend positions count.toNat 0 brush
  let brush := { brush with presetColors := { brush.presetColors with count := count } }
  if brush.blend.count ≠ -1 then
    { brush with blend := { brush.blend with count := -1 } }
  else
    brush

/-- The `GdipSetLinePresetBlend` of the source.  `blendColors` and
`blendPositions` are what the two `GdipAlloc` calls return when they are
reached. -/
def GdipSetLinePresetBlend (brush : Option GpLineGradient) (blend : Option (Nat → ARGB))
    (positions : Option (Nat → ℚ)) (count : Int) (blendColors : Option (Nat → ARGB))
    (blendPositions : Option (Nat → ℚ)) : GpStatus × Option GpLineGradient :=
  match brush, blend, positions with
  | none, _, _ => (InvalidParameter, brush)
  | some _, none, _ => (InvalidParameter, brush)
  | some _, some _, none => (InvalidParameter, brush)
  | some b, some blend, some positions =>
    if ¬ (count ≥ 0) then (InvalidParameter, brush)
    else if b.presetColors.count ≠ count then
      match blendColors with
      | none => (OutOfMemory, brush)
      | some blendColors =>
        match blendPositions with
        | none => (OutOfMemory, brush)
        | some blendPositions =>
          let b := { b with presetColors := { b.presetColors with colors := blendColors } }
          let b := { b with
            presetColors := { b.presetColors with positions := blendPositions } }
          (Ok, some (GdipSetLinePresetBlend_store b blend positions count))
    else
      (Ok, some (GdipSetLinePresetBlend_store b blend positions count))

/-- The `GdipSetLineColors` of the source. -/
def GdipSetLineColors (brush : Option GpLineGradient) (color1 color2 : ARGB) :
    GpStatus × Option GpLineGradient :=
  match brush with
  | none => (InvalidParameter, brush)
  | some b =>
    let b := { b with lineColors := (color1, b.lineColors.2) }
    let b := { b with lineColors := (b.lineColors.1, color2) }
    (Ok, some b)

/-- The `GdipSetLineTransform` of the source. -/
def GdipSetLineTransform (brush : Option GpLineGradient) (matrix : Option GpMatrix) :
    GpStatus × Option GpLineGradient :=
  match brush, matrix with
  | none, _ => (InvalidParameter, brush)
  | some _, none => (InvalidParameter, brush)
  | some b, some m => (Ok, some { b with matrix := m })

/-- The `GdipSetLineWrapMode` of the source. -/
def GdipSetLineWrapMode (brush : Option GpLineGradient) (wrapMode : GpWrapMode) :
    GpStatus × Option GpLineGradient :=
  match brush with
  | none => (InvalidParameter, brush)
  | some b =>
    if ¬ (wrapMode ≠ WrapModeClamp) then (InvalidParameter, brush)
    else (Ok, some { b with wrapMode := wrapMode })

/-- The `GdipSetLineLinearBlend` of the source. -/
def GdipSetLineLinearBlend (brush : Option GpLineGradient) (_focus _scale : ℚ) :
    GpStatus × Option GpLineGradient :=
  (NotImplemented, brush)

/-- The `GdipSetLineSigmaBlend` of the source. -/
def GdipSetLineSigmaBlend (brush : Option GpLineGradient) (_focus _scale : ℚ) :
    GpStatus × Option GpLineGradient :=
  (NotImplemented, brush)

/-- The `GdipMultiplyLineTransform` of the source.  `GdipMultiplyMatrix` (absent)
is the matrix operation it hands the brush's transform to: it returns a status
and the transform as it leaves it. -/
def GdipMultiplyLineTransform
    (GdipMultiplyMatrix : GpMatrix → GpMatrix → GpMatrixOrder → GpStatus × GpMatrix)
    (brush : Option GpLineGradient) (matrix : Option GpMatrix) (order : GpMatrixOrder) :
    GpStatus × Option GpLineGradient :=
  match brush, matrix with
  | none, _ => (InvalidParameter, brush)
  | some _, none => (InvalidParameter, brush)
  | some b, some m =>
    let r := GdipMultiplyMatrix b.matrix m order
    (r.1, some { b with matrix := r.2 })

/-- The `GdipResetLineTransform` of the source.  `cairo_matrix_set_identity`
(absent) returns a status and the transform as it leaves it; `gdip_get_status`
(absent) translates that status. -/
def GdipResetLineTransform (cairo_matrix_set_identity : GpMatrix → GpStatus × GpMatrix)
    (gdip_get_status : GpStatus → GpStatus) (brush : Option GpLineGradient) :
    GpStatus × Option GpLineGradient :=
  match brush with
  | none => (InvalidParameter, brush)
  | some b =>
    let r := cairo_matrix_set_identity b.matrix
    (gdip_get_status r.1, some { b with matrix := r.2 })

/-- The `GdipRotateLineTransform` of the source, over the absent
`GdipRotateMatrix`. -/
def GdipRotateLineTransform
    (GdipRotateMatrix : GpMatrix → ℚ → GpMatrixOrder → GpStatus × GpMatrix)
    (brush : Option GpLineGradient) (angle : ℚ) (order : GpMatrixOrder) :
    GpStatus × Option GpLineGradient :=
  match brush with
  | none => (InvalidParameter, brush)
  | some b =>
    let r := GdipRotateMatrix b.matrix angle order
    (r.1, some { b with matrix := r.2 })

/-- The `GdipScaleLineTransform` of the source, over the absent
`GdipScaleMatrix`. -/
def GdipScaleLineTransform
    (GdipScaleMatrix : GpMatrix → ℚ → ℚ → GpMatrixOrder → GpStatus × GpMatrix)
    (brush : Option GpLineGradient) (sx sy : ℚ) (order : GpMatrixOrder) :
    GpStatus × Option GpLineGradient :=
  match brush with
  | none => (InvalidParameter, brush)
  | some b =>
    let r := GdipScaleMatrix b.matrix sx sy order
    (r.1, some { b with matrix := r.2 })

/-- The `GdipTranslateLineTransform` of the source, over the absent
`GdipTranslateMatrix`. -/
def GdipTranslateLineTransform
    (GdipTranslateMatrix : GpMatrix → ℚ → ℚ → GpMatrixOrder → GpStatus × GpMatrix)
    (brush : Option GpLineGradient) (dx dy : ℚ) (order : GpMatrixOrder) :
    GpStatus × Option GpLineGradient :=
  match brush with
  | none => (InvalidParameter, brush)
  | some b =>
    let r := GdipTranslateMatrix b.matrix dx dy order
    (r.1, some { b with matrix := r.2 })

/-- The brush states a caller can bring about: a brush handed out by one of
the constructors, followed by any number of calls of the mutators, whatever
status they return. -/
inductive Reachable : GpLineGradient → Prop where
  | createLineBrush (point1 point2 color1 color2 wrapMode lineGradient rect result
      presetColors blend) (b : GpLineGradient) :
      GdipCreateLineBrush point1 point2 color1 color2 wrapMode lineGradient rect result
        presetColors blend = (Ok, some (some b)) → Reachable b
  | createLineBrushI (point1 point2 color1 color2 wrapMode lineGradient rect result
      presetColors blend) (b : GpLineGradient) :
      GdipCreateLineBrushI point1 point2 color1 color2 wrapMode lineGradient rect result
        presetColors blend = (Ok, some (some b)) → Reachable b
  | createLineBrushFromRect (rect color1 color2 mode wrapMode lineGradient result
      presetColors blend rectangle) (b : GpLineGradient) :
      GdipCreateLineBrushFromRect rect color1 color2 mode wrapMode lineGradient result
        presetColors blend rectangle = (Ok, some (some b)) → Reachable b
  | createLineBrushFromRectI (rect color1 color2 mode wrapMode lineGradient result
      presetColors blend rectangle) (b : GpLineGradient) :
      GdipCreateLineBrushFromRectI rect color1 color2 mode wrapMode lineGradient result
        presetColors blend rectangle = (Ok, some (some b)) → Reachable b
  | createLineBrushFromRectWithAngle (rect color1 color2 angle isAngleScalable wrapMode
      lineGradient result presetColors blend rectangle) (b : GpLineGradient) :
      GdipCreateLineBrushFromRectWithAngle rect color1 color2 angle isAngleScalable wrapMode
        lineGradient result presetColors blend rectangle = (Ok, some (some b)) → Reachable b
  | createLineBrushFromRectWithAngleI (rect color1 color2 angle isAngleScalable wrapMode
      lineGradient result presetColors blend rectangle) (b : GpLineGradient) :
      GdipCreateLineBrushFromRectWithAngleI rect color1 color2 angle isAngleScalable wrapMode
        lineGradient result presetColors blend rectangle = (Ok, some (some b)) → Reachable b
  | setLineBlend (b b' : GpLineGradient) (blend positions count blendFactors
      blendPositions) : Reachable b →
      (GdipSetLineBlend (some b) blend positions count blendFactors blendPositions).2
        = some b' → Reachable b'
  | setLinePresetBlend (b b' : GpLineGradient) (blend positions count blendColors
      blendPositions) : Reachable b →
      (GdipSetLinePresetBlend (some b) blend positions count blendColors blendPositions).2
        = some b' → Reachable b'
  | setLineGammaCorrection (b b' : GpLineGradient) (useGammaCorrection) : Reachable b →
      (GdipSetLineGammaCorrection (some b) useGammaCorrection).2 = some b' → Reachable b'
  | setLineColors (b b' : GpLineGradient) (color1 color2) : Reachable b →
      (GdipSetLineColors (some b) color1 color2).2 = some b' → Reachable b'
  | setLineTransform (b b' : GpLineGradient) (matrix) : Reachable b →
      (GdipSetLineTransform (some b) matrix).2 = some b' → Reachable b'
  | setLineWrapMode (b b' : GpLineGradient) (wrapMode) : Reachable b →
      (GdipSetLineWrapMode (some b) wrapMode).2 = some b' → Reachable b'
  | setLineLinearBlend (b b' : GpLineGradient) (focus scale) : Reachable b →
      (GdipSetLineLinearBlend (some b) focus scale).2 = some b' → Reachable b'
  | setLineSigmaBlend (b b' : GpLineGradient) (focus scale) : Reachable b →
      (GdipSetLineSigmaBlend (some b) focus scale).2 = some b' → Reachable b'
  | multiplyLineTransform (b b' : GpLineGradient) (GdipMultiplyMatrix matrix order) :
      Reachable b →
      (GdipMultiplyLineTransform GdipMultiplyMatrix (some b) matrix order).2 = some b' →
      Reachable b'
  | resetLineTransform (b b' : GpLineGradient) (cairo_matrix_set_identity gdip_get_status) :
      Reachable b →
      (GdipResetLineTransform cairo_matrix_set_identity gdip_get_status (some b)).2
        = some b' → Reachable b'
  | rotateLineTransform (b b' : GpLineGradient) (GdipRotateMatrix angle order) :
      Reachable b →
      (GdipRotateLineTransform GdipRotateMatrix (some b) angle order).2 = some b' →
      Reachable b'
  | scaleLineTransform (b b' : GpLineGradient) (GdipScaleMatrix sx sy order) :
      Reachable b →
      (GdipScaleLineTransform GdipScaleMatrix (some b) sx sy order).2 = some b' →
      Reachable b'
  | translateLineTransform (b b' : GpLineGradient) (GdipTranslateMatrix dx dy order) :
      Reachable b →
      (GdipTranslateLineTransform GdipTranslateMatrix (some b) dx dy order).2 = some b' →
      Reachable b'

/-- The 8-bit component of a packed colour held in bits `k` to `k + 7`. -/
def channel (color : ARGB) (k : Nat) : Nat := color / 2 ^ k % 256

/-- The two counts of a brush show exactly one active structure. -/
def ExactlyOneActive (b : GpLineGradient) : Prop :=
  (b.blend.count ≥ 0 ∨ b.presetColors.count ≥ 0) ∧
  ¬ (b.blend.count ≥ 0 ∧ b.presetColors.count ≥ 0)

/-! ## Paint construction -/

/-- Modelled from the spec: the extend policies of the fill engine (cairo,
absent). -/
inductive cairo_extend_t where
  | CAIRO_EXTEND_NONE
  | CAIRO_EXTEND_REPEAT
  | CAIRO_EXTEND_REFLECT
  deriving DecidableEq, Repr

/-- Modelled from the spec: a paint source of the fill engine (cairo, absent):
either a linear paint, its axis and its ordered colour stops, or the current
target surface taken as a paint, with its extend policy and its transform. -/
inductive cairo_source where
  | linear (x0 y0 x1 y1 : ℚ) (stops : cairo_pattern_t)
  | surface (extend : cairo_extend_t) (matrix : GpMatrix)
  deriving DecidableEq

/-- Modelled from the spec: one call received by the drawing context of the
fill engine (cairo, absent), with its arguments. -/
inductive cairo_call where
  | cairo_save
  | cairo_rectangle (x y width height : ℚ)
  | cairo_set_pattern (pattern : cairo_source)
  | cairo_rotate (angle : ℚ)
  | cairo_fill
  | cairo_restore
  deriving DecidableEq

/-- Modelled from the spec: the drawing context `cairo_t` of the fill engine
(absent), seen as the ordered record of the calls it has received. -/
abbrev cairo_t := List cairo_call

/-- Modelled from the spec: the `GpGraphics` of `gdip.h` (absent), of which the
source reads the drawing context `ct` only (`none` for a null pointer). -/
structure GpGraphics where
  ct : Option cairo_t
  deriving DecidableEq

/-- The `create_tile_linear` of the source.  `pattern` is what
`cairo_pattern_create_linear` returns: `none` when it fails, otherwise the new
paint with the stops it holds on arrival.  The result is `none` where the
source reads through the null `linear->rectangle`; otherwise it is the status
and the drawing context as it is after the call. -/
def create_tile_linear (ct : cairo_t) (linear : GpLineGradient)
    (pattern : Option cairo_pattern_t) : Option (GpStatus × cairo_t) :=
  let ct := ct ++ [cairo_call.cairo_save]
  match linear.rectangle with
  | none => none
  | some rectangle =>
    let ct := ct ++ [cairo_call.cairo_rectangle rectangle.X rectangle.Y rectangle.Width
      rectangle.Height]
    match pattern with
    | none => some (OutOfMemory, ct)
    | some pattern =>
      let pattern :=
        if linear.blend.count > 0 then
          add_color_stops_from_blend pattern linear.blend linear.lineColors
        else
          add_color_stops_from_interpolation_colors pattern linear.presetColors
      let ct := ct ++ [cairo_call.cairo_set_pattern
        (cairo_source.linear linear.points.1.X linear.points.1.Y
          linear.points.2.X linear.points.2.Y pattern)]
      let ct := ct ++ [cairo_call.cairo_rotate linear.angle]
      let ct := ct ++ [cairo_call.cairo_fill]
      let ct := ct ++ [cairo_call.cairo_restore]
      let ct := ct ++ [cairo_call.cairo_set_pattern
        (cairo_source.surface cairo_extend_t.CAIRO_EXTEND_REPEAT linear.matrix)]
      some (Ok, ct)

/-- The `create_tile_flipX_linear` of the source. -/
def create_tile_flipX_linear (_ct : cairo_t) (_linear : GpLineGradient) : GpStatus :=
  NotImplemented

/-- The `gdip_linear_gradient_setup` of the source.  `pattern` is handed on to
`create_tile_linear`; the result is `none` where that function has none,
otherwise the status and the graphics as it is after the call. -/
def gdip_linear_gradient_setup (graphics : Option GpGraphics) (brush : Option GpLineGradient)
    (pattern : Option cairo_pattern_t) : Option (GpStatus × Option GpGraphics) :=
  match graphics, brush with
  | none, _ => some (InvalidParameter, graphics)
  | some _, none => some (InvalidParameter, graphics)
  | some g, some linear =>
    match g.ct with
    | none => some (InvalidParameter, graphics)
    | some ct =>
      match linear.wrapMode with
      | WrapModeTile | WrapModeTileFlipY =>
        match create_tile_linear ct linear pattern with
        | none => none
        | some r => some (r.1, some { g with ct := some r.2 })
      | WrapModeTileFlipX | WrapModeTileFlipXY =>
        some (create_tile_flipX_linear ct linear, graphics)
      | _ => some (InvalidParameter, graphics)

/-- The `GdipGetLineRect` of the source.  `rect` is the rectangle written to
and is returned as it is after the call; the result is `none` where the source
copies from the null `brush->rectangle`. -/
def GdipGetLineRect (brush : Option GpLineGradient) (rect : Option GpRectF) :
    Option (GpStatus × Option GpRectF) :=
  match brush, rect with
  | none, _ => some (InvalidParameter, rect)
  | some _, none => some (InvalidParameter, rect)
  | some b, some _ =>
    match b.rectangle with
    | none => none
    | some rectangle => some (Ok, some rectangle)

/-! ## Cloning -/

/-- The `memcpy` of the C library over whole cells: the first `n` cells of
`dest` become those of `src`. -/
def memcpy {α : Type} (dest src : Nat → α) (n : Nat) : Nat → α :=
  fun i => if i < n then src i else dest i

/-- Modelled from the spec: `GdipCloneMatrix` (absent) stores a copy of the
transform that is equal to it by value. -/
def GdipCloneMatrix (matrix : GpMatrix) : GpMatrix := matrix

/-- The preset part of `gdip_linear_gradient_clone_brush`, from the test of
`linear->presetColors->count` to the end of that `if`; `colors` and `positions`
are what the two `GdipAlloc` calls return, and the result is `none` where the
source jumps to one of its `NO_PRESET_` labels. -/
def gdip_linear_gradient_clone_brush_preset (linear newbrush : GpLineGradient)
    (colors : Option (Nat → ARGB)) (positions : Option (Nat → ℚ)) : Option GpLineGradient :=
  if linear.presetColors.count ≠ -1 then
    match colors with
    | none => none
    | some colors =>
      let newbrush := { newbrush with
        presetColors := { newbrush.presetColors with colors := colors } }
      let newbrush := { newbrush with
        presetColors := { newbrush.presetColors with
          colors := memcpy newbrush.presetColors.colors linear.presetColors.colors
            linear.presetColors.count.toNat } }
      match positions with
      | none => none
      | some positions =>
        let newbrush := { newbrush with
          presetColors := { newbrush.presetColors with positions := positions } }
        some { newbrush with
          presetColors := { newbrush.presetColors with
            positions := memcpy newbrush.presetColors.positions linear.presetColors.positions
              linear.presetColors.count.toNat } }
  else
    some { newbrush with presetColors := linear.presetColors }

/-- The blend part of `gdip_linear_gradient_clone_brush`, from the test of
`linear->blend->count` to the end of that `if`; `factors` and `positions` are
what the two `GdipAlloc` calls return, and the result is `none` where the
source jumps to one of its `NO_BLEND_` labels. -/
def gdip_linear_gradient_clone_brush_blend (linear newbrush : GpLineGradient)
    (factors positions : Option (Nat → ℚ)) : Option GpLineGradient :=
  if linear.blend.count ≠ -1 then
    match factors with
    | none => none
    | some factors =>
      let newbrush := { newbrush with blend := { newbrush.blend with factors := factors } }
      let newbrush := { newbrush with
        blend := { newbrush.blend with
          factors := memcpy newbrush.blend.factors linear.blend.factors
            linear.blend.count.toNat } }
      match positions with
      | none => none
      | some positions =>
        let newbrush := { newbrush with
          blend := { newbrush.blend with positions := positions } }
        some { newbrush with
          blend := { newbrush.blend with
            positions := memcpy newbrush.blend.positions linear.blend.positions
              linear.blend.count.toNat } }
  else
    some { newbrush with blend := linear.blend }

/-- The `gdip_linear_gradient_clone_brush` of the source.  `clonedBrush` is the
slot the clone is stored in and is returned as it is after the call.  The
allocations, in the order the source makes them: `newbrush` (the brush),
`presetColors` (its ramp block), `colors` and `positions` (the ramp arrays),
`blend` (its curve block), `factors` and `blendPositions` (the curve arrays);
each block arrives with the contents it happens to hold. -/
def gdip_linear_gradient_clone_brush (brush : Option GpLineGradient)
    (clonedBrush : Option (Option GpLineGradient)) (newbrush : Option GpLineGradient)
    (presetColors : Option InterpolationColors) (colors : Option (Nat → ARGB))
    (positions : Option (Nat → ℚ)) (blend : Option Blend)
    (factors blendPositions : Option (Nat → ℚ)) : GpStatus × Option (Option GpLineGradient) :=
  match brush, clonedBrush with
  | none, _ => (InvalidParameter, clonedBrush)
  | some _, none => (InvalidParameter, clonedBrush)
  | some linear, some _ =>
    match newbrush with
    | none => (OutOfMemory, clonedBrush)
    | some newbrush =>
      let newbrush := { newbrush with base := linear.base }
      let newbrush := { newbrush with wrapMode := linear.wrapMode }
      let newbrush := { newbrush with matrix := GdipCloneMatrix linear.matrix }
      let newbrush := { newbrush with rectangle := linear.rectangle }
      let newbrush := { newbrush with gammaCorrection := linear.gammaCorrection }
      let newbrush := { newbrush with angle := linear.angle }
      let newbrush := { newbrush with isAngleScalable := linear.isAngleScalable }
      let newbrush := { newbrush with lineColors := (linear.lineColors.1, newbrush.lineColors.2) }
      let newbrush := { newbrush with lineColors := (newbrush.lineColors.1, linear.lineColors.2) }
      let newbrush := { newbrush with points := (linear.points.1, newbrush.points.2) }
      let newbrush := { newbrush with points := (newbrush.points.1, linear.points.2) }
      match presetColors with
      | none => (OutOfMemory, clonedBrush)
      | some presetColors =>
        let newbrush := { newbrush with presetColors := presetColors }
        match gdip_linear_gradient_clone_brush_preset linear newbrush colors positions with
        | none => (OutOfMemory, clonedBrush)
        | some newbrush =>
          match blend with
          | none => (OutOfMemory, clonedBrush)
          | some blend =>
            let newbrush := { newbrush with blend := blend }
            match gdip_linear_gradient_clone_brush_blend linear newbrush factors
                blendPositions with
            | none => (OutOfMemory, clonedBrush)
            | some newbrush => (Ok, some (some newbrush))

/-! ## Initialisation with the pointers kept as addresses -/

/-- The `struct _Blend` of the source with its two pointer fields kept as the
addresses they hold, address 0 being the null pointer. -/
structure BlendAt where
  factors : Nat
  positions : Nat
  count : Int
  deriving DecidableEq

/-- The `float` cells of the machine by address: the value held at an
address, or `none` where the address lies in no allocated storage. -/
abbrev FloatCells := Nat → Option ℚ

/-- A store `*p = v` of a `float`: it needs a cell at the address `p`. -/
def storeFloat (cells : FloatCells) (p : Nat) (v : ℚ) : Option FloatCells :=
  match cells p with
  | none => none
  | some _ => some (Function.update cells p (some v))

/-- The three statements of `gdip_linear_gradient_init` that follow
`linear->blend = GdipAlloc (sizeof (Blend))`, with the pointers kept as
addresses: `blend` is the fresh block with the contents it has on arrival.
The result is `none` where a store finds no cell. -/
def gdip_linear_gradient_init_blend (cells : FloatCells) (blend : BlendAt) :
    Option (FloatCells × BlendAt) :=
  let blend := { blend with count := 1 }
  match storeFloat cells blend.factors 1 with
  | none => none
  | some cells =>
    match storeFloat cells blend.positions 0 with
    | none => none
    | some cells => some (cells, blend)

/-! ## Floating-point numbers

The definitions of this section read the arithmetic of the source as IEEE 754
arithmetic: every operation rounds its exact result to the nearest number of
its format, ties to even, overflows to an infinity, and propagates NaN; a
comparison with NaN is false.  An operation on `float` operands is evaluated
in `binary32` and one on `double` operands in `binary64`, with no excess
precision and no fused multiply-add.  Signed zeros are not distinguished (zero
stands for +0), and the exact conversion of a `float` to `double` is left
out. -/

/-- A binary format of IEEE 754: the number of bits of the significand and the
least and greatest exponent. -/
structure Format where
  precision : Nat
  emin : Int
  emax : Int

/-- The format of the C type `float`. -/
def binary32 : Format := ⟨24, -126, 127⟩

/-- The format of the C type `double`. -/
def binary64 : Format := ⟨53, -1022, 1023⟩

/-- The integer nearest to `m`, the even one of the two when `m` lies half-way
between them. -/
def roundHalfEven (m : ℚ) : Int :=
  if m - ⌊m⌋ < 1 / 2 then ⌊m⌋
  else if 1 / 2 < m - ⌊m⌋ then ⌊m⌋ + 1
  else if ⌊m⌋ % 2 = 0 then ⌊m⌋ else ⌊m⌋ + 1

/-- The spacing of the numbers of a format around `q`: two to the power
`e - precision + 1`, where `e` is the exponent of `q`, not below `emin`. -/
def Format.ulp (f : Format) (q : ℚ) : ℚ :=
  (2 : ℚ) ^ (max (Int.log 2 |q|) f.emin - ((f.precision : Int) - 1))

/-- The number of a format nearest to `q`, ties to even, before the check for
overflow. -/
def Format.roundQ (f : Format) (q : ℚ) : ℚ :=
  roundHalfEven (q / f.ulp q) * f.ulp q

/-- A floating-point datum: NaN, an infinity with its sign, or a number. -/
inductive IEEE where
  | nan
  | inf (negative : Bool)
  | num (q : ℚ)
  deriving DecidableEq

/-- The rounding of an exact result to a format, with overflow to the infinity
of its sign. -/
def Format.round (f : Format) (q : ℚ) : IEEE :=
  if |f.roundQ q| < (2 : ℚ) ^ (f.emax + 1) then IEEE.num (f.roundQ q)
  else IEEE.inf (decide (q < 0))

/-- The conversion of a datum to a format (the narrowing of a `double` to
`float`). -/
def Format.convert (f : Format) : IEEE → IEEE
  | IEEE.nan => IEEE.nan
  | IEEE.inf s => IEEE.inf s
  | IEEE.num q => f.round q

/-- The sum of two data, rounded to `f`. -/
def IEEE.add (f : Format) : IEEE → IEEE → IEEE
  | IEEE.nan, _ => IEEE.nan
  | _, IEEE.nan => IEEE.nan
  | IEEE.inf s, IEEE.inf t => if s = t then IEEE.inf s else IEEE.nan
  | IEEE.inf s, IEEE.num _ => IEEE.inf s
  | IEEE.num _, IEEE.inf t => IEEE.inf t
  | IEEE.num a, IEEE.num b => f.round (a + b)

/-- The difference of two data, rounded to `f`. -/
def IEEE.sub (f : Format) : IEEE → IEEE → IEEE
  | IEEE.nan, _ => IEEE.nan
  | _, IEEE.nan => IEEE.nan
  | IEEE.inf s, IEEE.inf t => if s = t then IEEE.nan else IEEE.inf s
  | IEEE.inf s, IEEE.num _ => IEEE.inf s
  | IEEE.num _, IEEE.inf t => IEEE.inf (!t)
  | IEEE.num a, IEEE.num b => f.round (a - b)

/-- The product of two data, rounded to `f`. -/
def IEEE.mul (f : Format) : IEEE → IEEE → IEEE
  | IEEE.nan, _ => IEEE.nan
  | _, IEEE.nan => IEEE.nan
  | IEEE.inf s, IEEE.inf t => IEEE.inf (xor s t)
  | IEEE.inf s, IEEE.num b => if b = 0 then IEEE.nan else IEEE.inf (xor s (decide (b < 0)))
  | IEEE.num a, IEEE.inf t => if a = 0 then IEEE.nan else IEEE.inf (xor (decide (a < 0)) t)
  | IEEE.num a, IEEE.num b => f.round (a * b)

/-- The quotient of two data, rounded to `f`. -/
def IEEE.div (f : Format) : IEEE → IEEE → IEEE
  | IEEE.nan, _ => IEEE.nan
  | _, IEEE.nan => IEEE.nan
  | IEEE.inf _, IEEE.inf _ => IEEE.nan
  | IEEE.inf s, IEEE.num b => IEEE.inf (xor s (decide (b < 0)))
  | IEEE.num _, IEEE.inf _ => IEEE.num 0
  | IEEE.num a, IEEE.num b =>
    if b = 0 then (if a = 0 then IEEE.nan else IEEE.inf (decide (a < 0)))
    else f.round (a / b)

/-- The comparison `a < b` of C; false when either is NaN. -/
def IEEE.lt : IEEE → IEEE → Bool
  | IEEE.nan, _ => false
  | _, IEEE.nan => false
  | IEEE.inf s, IEEE.inf t => s && !t
  | IEEE.inf s, IEEE.num _ => s
  | IEEE.num _, IEEE.inf t => !t
  | IEEE.num a, IEEE.num b => decide (a < b)

/-- The comparison `a > b` of C. -/
def IEEE.gt (a b : IEEE) : Bool := IEEE.lt b a

/-- The comparison `a == b` of C; false when either is NaN. -/
def IEEE.equal : IEEE → IEEE → Bool
  | IEEE.nan, _ => false
  | _, IEEE.nan => false
  | IEEE.inf s, IEEE.inf t => decide (s = t)
  | IEEE.inf _, IEEE.num _ => false
  | IEEE.num _, IEEE.inf _ => false
  | IEEE.num a, IEEE.num b => decide (a = b)

/-- The `GpRectF` of `gdip.h` (absent) with its four `float` fields as
floating-point data. -/
structure GpRectFIEEE where
  X : IEEE
  Y : IEEE
  Width : IEEE
  Height : IEEE
  deriving DecidableEq

/-- The `GpPointF` of `gdip.h` (absent) with its two `float` fields as
floating-point data. -/
structure GpPointFIEEE where
  X : IEEE
  Y : IEEE
  deriving DecidableEq

/-- The `gdip_set_rect` of the source in floating-point arithmetic.  The
differences of two `float`s are rounded to `binary32`; `x1 - Height / 2.0` is
computed in `double` and narrowed to `float` by the assignment. -/
def gdip_set_rect_ieee (rect : Option GpRectFIEEE) (x1 y1 x2 y2 : IEEE) :
    Option GpRectFIEEE :=
  match rect with
  | none => none
  | some r =>
    if IEEE.equal x1 x2 then
      let r := { r with
        Height := if IEEE.gt y1 y2 then IEEE.sub binary32 y1 y2 else IEEE.sub binary32 y2 y1 }
      let r := { r with Width := r.Height }
      let r := { r with
        X := binary32.convert
          (IEEE.sub binary64 x1 (IEEE.div binary64 r.Height (IEEE.num 2))) }
      some { r with Y := if IEEE.lt y1 y2 then y1 else y2 }
    else if IEEE.equal y1 y2 then
      let r := { r with
        Width := if IEEE.gt x1 x2 then IEEE.sub binary32 x1 x2 else IEEE.sub binary32 x2 x1 }
      let r := { r with Height := r.Width }
      let r := { r with X := if IEEE.lt x1 x2 then x1 else x2 }
      some { r with
        Y := binary32.convert
          (IEEE.sub binary64 y1 (IEEE.div binary64 r.Width (IEEE.num 2))) }
    else
      let r := { r with
        Width := if IEEE.gt x1 x2 then IEEE.sub binary32 x1 x2 else IEEE.sub binary32 x2 x1 }
      let r := { r with
        Height := if IEEE.gt y1 y2 then IEEE.sub binary32 y1 y2 else IEEE.sub binary32 y2 y1 }
      let r := { r with X := if IEEE.lt x1 x2 then x1 else x2 }
      some { r with Y := if IEEE.lt y1 y2 then y1 else y2 }

/-- The `struct _Blend` of the source with its `float` cells as floating-point
data. -/
structure BlendIEEE where
  factors : Nat → IEEE
  positions : Nat → IEEE
  count : Int

/-- A colour stop handed to `cairo_pattern_add_color_stop` (absent), its five
`double` arguments as floating-point data. -/
structure ColorStopIEEE where
  offset : IEEE
  red : IEEE
  green : IEEE
  blue : IEEE
  alpha : IEEE
  deriving DecidableEq

/-- The value `(s * factor) + (e * (1 - factor))` of the source, each of its
four operations rounded to `double`; `s` and `e` are the 8-bit channels, which
convert to `double` exactly. -/
def blend_channel_ieee (s e : Nat) (factor : IEEE) : IEEE :=
  IEEE.add binary64 (IEEE.mul binary64 (IEEE.num s) factor)
    (IEEE.mul binary64 (IEEE.num e) (IEEE.sub binary64 (IEEE.num 1) factor))

/-- The `for` loop of `add_color_stops_from_blend` in floating-point
arithmetic: `todo` iterations are left, the next one at `index`. -/
def add_color_stops_from_blend_ieee_loop (blend : BlendIEEE) (sr sg sb sa er eg eb ea : Nat) :
    Nat → Nat → List ColorStopIEEE → List ColorStopIEEE
  | 0, _, pattern => pattern
  | todo + 1, index, pattern =>
    let factor := blend.factors index
    let offset := blend.positions index
    add_color_stops_from_blend_ieee_loop blend sr sg sb sa er eg eb ea todo (index + 1)
      (pattern ++ [{ offset := offset,
                     red := blend_channel_ieee sr er factor,
                     green := blend_channel_ieee sg eg factor,
                     blue := blend_channel_ieee sb eb factor,
                     alpha := blend_channel_ieee sa ea factor }])

/-- The `add_color_stops_from_blend` of the source in floating-point
arithmetic; the pattern is the ordered list of the stops it was given. -/
def add_color_stops_from_blend_ieee (pattern : List ColorStopIEEE) (blend : BlendIEEE)
    (colors : ARGB × ARGB) : List ColorStopIEEE :=
  let sa := (colors.1 >>> 24) &&& 0xFF
  let sr := (colors.1 >>> 16) &&& 0xFF
  let sg := (colors.1 >>> 8) &&& 0xFF
  let sb := colors.1 &&& 0xFF
  let ea := (colors.2 >>> 24) &&& 0xFF
  let er := (colors.2 >>> 16) &&& 0xFF
  let eg := (colors.2 >>> 8) &&& 0xFF
  let eb := colors.2 &&& 0xFF
  add_color_stops_from_blend_ieee_loop blend sr sg sb sa er eg eb ea blend.count.toNat 0
    pattern

/-! ## The brush with its arrays kept in allocated storage

The definitions of this section read the same source functions with the array
pointers kept as the addresses they hold and with a record of the blocks that
are allocated, so that a store through a pointer and a `GdipFree` of a pointer
need a block to act on.  The `float` fields and cells hold floating-point
data. -/

/-- A block of storage handed out by `GdipAlloc` for an array: its cells by
index.  The size of a block is not recorded. -/
inductive Block where
  | floats (cells : Nat → IEEE)
  | colors (cells : Nat → ARGB)

/-- The allocated blocks by base address.  Address 0 is the null pointer. -/
abbrev Heap := Nat → Option Block

/-- Modelled from the spec: `GdipAlloc` (absent) hands out fresh storage.  `p`
is the address it returns, 0 when it fails, and `block` the contents the block
happens to hold. -/
def GdipAlloc (heap : Heap) (p : Nat) (block : Block) : Heap :=
  if p = 0 then heap else Function.update heap p (some block)

/-- Modelled from the spec: `GdipFree` (absent) releases the storage a pointer
owns.  As the `free` of the C library it does nothing on the null pointer and
otherwise needs the base address of an allocated block: the result is `none`
where there is no such block (a pointer already released, or one that was
never assigned). -/
def GdipFree (heap : Heap) (p : Nat) : Option Heap :=
  if p = 0 then some heap
  else
    match heap p with
    | none => none
    | some _ => some (Function.update heap p none)

/-- A store `p[i] = v` of a `float`: `none` where `p` is null or is not the
base address of an allocated block of floats. -/
def storeFloatAt (heap : Heap) (p i : Nat) (v : IEEE) : Option Heap :=
  if p = 0 then none
  else
    match heap p with
    | some (Block.floats cells) =>
      some (Function.update heap p (some (Block.floats (Function.update cells i v))))
    | _ => none

/-- A store `p[i] = v` of an `ARGB`: `none` where `p` is null or is not the
base address of an allocated block of colours. -/
def storeColorAt (heap : Heap) (p i : Nat) (v : ARGB) : Option Heap :=
  if p = 0 then none
  else
    match heap p with
    | some (Block.colors cells) =>
      some (Function.update heap p (some (Block.colors (Function.update cells i v))))
    | _ => none

/-- The `struct _InterpolationColors` of the source with its two pointer
fields kept as the addresses they hold. -/
structure InterpolationColorsAt where
  colors : Nat
  positions : Nat
  count : Int
  deriving DecidableEq

/-- The `GpLineGradient` of the source with the array pointers of its blend
curve and preset ramp kept as addresses; the other fields are as in
`GpLineGradient`. -/
structure GpLineGradientAt where
  base : GpBrush
  wrapMode : GpWrapMode
  matrix : GpMatrix
  rectangle : Option GpRectFIEEE
  gammaCorrection : Bool
  angle : IEEE
  isAngleScalable : Bool
  lineColors : ARGB × ARGB
  points : GpPointFIEEE × GpPointFIEEE
  presetColors : InterpolationColorsAt
  blend : BlendAt
  deriving DecidableEq

/-- The `gdip_linear_gradient_init` of the source over allocated storage.
`presetColors` and `blend` are the two fresh blocks with the contents they have
on arrival; the result is `none` where one of the two stores through
`blend->factors` and `blend->positions` finds no block. -/
def gdip_linear_gradient_init_at (heap : Heap) (linear : GpLineGradientAt)
    (presetColors : InterpolationColorsAt) (blend : BlendAt) :
    Option (Heap × GpLineGradientAt) :=
  let linear := { linear with base := gdip_brush_init linear.base vtable }
  let linear := { linear with wrapMode := WrapModeTile }
  let linear := { linear with matrix := cairo_matrix_create }
  let linear := { linear with rectangle := none }
  let linear := { linear with gammaCorrection := false }
  let linear := { linear with angle := IEEE.num 0 }
  let linear := { linear with isAngleScalable := false }
  let linear := { linear with presetColors := presetColors }
  let linear := { linear with presetColors := { linear.presetColors with count := -1 } }
  let linear := { linear with blend := blend }
  let linear := { linear with blend := { linear.blend with count := 1 } }
  match storeFloatAt heap linear.blend.factors 0 (IEEE.num 1) with
  | none => none
  | some heap =>
    match storeFloatAt heap linear.blend.positions 0 (IEEE.num 0) with
    | none => none
    | some heap => some (heap, linear)

/-- The `gdip_linear_gradient_new` of the source over allocated storage;
`result` is what `GdipAlloc` returns for the brush itself.  The outer `Option`
is `none` where the initialisation has no result. -/
def gdip_linear_gradient_new_at (heap : Heap) (result : Option GpLineGradientAt)
    (presetColors : InterpolationColorsAt) (blend : BlendAt) :
    Option (Heap × Option GpLineGradientAt) :=
  match result with
  | some r =>
    match gdip_linear_gradient_init_at heap r presetColors blend with
    | none => none
    | some (heap, linear) => some (heap, some linear)
  | none => some (heap, none)

/-- The `gdip_linear_gradient_destroy` of the source on a brush over allocated
storage.  Only the blocks of the four arrays are recorded, so the release of
the matrix, of the rectangle, of the two structures and of the brush itself
leaves no trace; the result is `none` where a `GdipFree` finds no block. -/
def gdip_linear_gradient_destroy_at (heap : Heap) (brush : Option GpLineGradientAt) :
    Option (Heap × GpStatus) :=
  match brush with
  | none => some (heap, InvalidParameter)
  | some linear =>
    let released : Option Heap :=
      if linear.blend.count ≠ -1 then
        match GdipFree heap linear.blend.factors with
        | none => none
        | some heap => GdipFree heap linear.blend.positions
      else some heap
    match released with
    | none => none
    | some heap =>
      if linear.presetColors.count ≠ -1 then
        match GdipFree heap linear.presetColors.colors with
        | none => none
        | some heap =>
          match GdipFree heap linear.presetColors.positions with
          | none => none
          | some heap => some (heap, Ok)
      else some (heap, Ok)

/-- The `GdipCreateLineBrushFromRectWithAngle` of the source over allocated
storage; the arguments are those of `GdipCreateLineBrushFromRectWithAngle`, and
the result is `none` where the initialisation of the brush has none.  The two
sums and the quotient that place the axis are `float` operations. -/
def GdipCreateLineBrushFromRectWithAngle_at (heap : Heap) (rect : Option GpRectFIEEE)
    (color1 color2 : ARGB) (angle : IEEE) (isAngleScalable : Bool) (wrapMode : GpWrapMode)
    (lineGradient : Option (Option GpLineGradientAt)) (result : Option GpLineGradientAt)
    (presetColors : InterpolationColorsAt) (blend : BlendAt) (rectangle : Option GpRectFIEEE) :
    Option (Heap × GpStatus × Option (Option GpLineGradientAt)) :=
  match rect, lineGradient with
  | none, _ => some (heap, InvalidParameter, lineGradient)
  | some _, none => some (heap, InvalidParameter, lineGradient)
  | some rect, some _ =>
    match gdip_linear_gradient_new_at heap result presetColors blend with
    | none => none
    | some (heap, none) => some (heap, OutOfMemory, lineGradient)
    | some (heap, some linear) =>
      match rectangle with
      | none =>
        match gdip_linear_gradient_destroy_at heap (some linear) with
        | none => none
        | some (heap, _) => some (heap, OutOfMemory, lineGradient)
      | some _ =>
        let linear := { linear with rectangle := some rect }
        let linear := { linear with wrapMode := wrapMode }
        let linear := { linear with lineColors := (color1, linear.lineColors.2) }
        let linear := { linear with lineColors := (linear.lineColors.1, color2) }
        let linear := { linear with angle := angle }
        let linear := { linear with isAngleScalable := isAngleScalable }
        let linear := { linear with
          points := ({ linear.points.1 with X := rect.X }, linear.points.2) }
        let linear := { linear with
          points := ({ linear.points.1 with
            Y := IEEE.add binary32 rect.Y (IEEE.div binary32 rect.Height (IEEE.num 2)) },
            linear.points.2) }
        let linear := { linear with
          points := (linear.points.1,
            { linear.points.2 with X := IEEE.add binary32 rect.X rect.Width }) }
        let linear := { linear with
          points := (linear.points.1, { linear.points.2 with Y := linear.points.1.Y }) }
        some (heap, Ok, some (some linear))

/-- The `GdipCreateLineBrushFromRect` of the source over allocated storage. -/
def GdipCreateLineBrushFromRect_at (heap : Heap) (rect : Option GpRectFIEEE)
    (color1 color2 : ARGB) (mode : LinearGradientMode) (wrapMode : GpWrapMode)
    (lineGradient : Option (Option GpLineGradientAt)) (result : Option GpLineGradientAt)
    (presetColors : InterpolationColorsAt) (blend : BlendAt) (rectangle : Option GpRectFIEEE) :
    Option (Heap × GpStatus × Option (Option GpLineGradientAt)) :=
  let angle : IEEE :=
    match mode with
    | LinearGradientModeHorizontal => IEEE.num 0
    | LinearGradientModeVertical => IEEE.num 90
    | LinearGradientModeForwardDiagonal => IEEE.num 45
    | LinearGradientModeBackwardDiagonal => IEEE.num 135
    | LinearGradientMode.other _ => IEEE.num 0
  GdipCreateLineBrushFromRectWithAngle_at heap rect color1 color2 angle false wrapMode
    lineGradient result presetColors blend rectangle

/-- The `GdipGetLineRect` of the source on a brush over allocated storage. -/
def GdipGetLineRect_at (brush : Option GpLineGradientAt) (rect : Option GpRectFIEEE) :
    Option (GpStatus × Option GpRectFIEEE) :=
  match brush, rect with
  | none, _ => some (InvalidParameter, rect)
  | some _, none => some (InvalidParameter, rect)
  | some b, some _ =>
    match b.rectangle with
    | none => none
    | some rectangle => some (Ok, some rectangle)

/-- The copy loop of `GdipSetLineBlend` over allocated storage: `todo`
iterations are left, the next one at `index`; `none` where a store finds no
block. -/
def GdipSetLineBlend_loop_at (brush : GpLineGradientAt) (blend positions : Nat → IEEE) :
    Nat → Nat → Heap → Option Heap
  | 0, _, heap => some heap
  | todo + 1, index, heap =>
    match storeFloatAt heap brush.blend.factors index (blend index) with
    | none => none
    | some heap =>
      match storeFloatAt heap brush.blend.positions index (positions index) with
      | none => none
      | some heap => GdipSetLineBlend_loop_at brush blend positions todo (index + 1) heap

/-- The part of `GdipSetLineBlend` after the storage has been settled, over
allocated storage: the copy loop, the new count, and the release and disabling
of the preset ramp. -/
def GdipSetLineBlend_store_at (heap : Heap) (brush : GpLineGradientAt)
    (blend positions : Nat → IEEE) (count : Int) :
    Option (Heap × GpStatus × Option GpLineGradientAt) :=
  match GdipSetLineBlend_loop_at brush blend positions count.toNat 0 heap with
  | none => none
  | some heap =>
    let brush := { brush with blend := { brush.blend with count := count } }
    if brush.presetColors.count ≠ -1 then
      match GdipFree heap brush.presetColors.colors with
      | none => none
      | some heap =>
        match GdipFree heap brush.presetColors.positions with
        | none => none
        | some heap =>
          some (heap, Ok,
            some { brush with presetColors := { brush.presetColors with count := -1 } })
    else
      some (heap, Ok, some brush)

/-- The `GdipSetLineBlend` of the source over allocated storage.
`blendFactors` and `blendPositions` are the addresses the two `GdipAlloc` calls
return when they are reached (0 when they fail) and `junk` the contents of the
fresh blocks.  The result is `none` where a `GdipFree` or a store finds no
block; otherwise it is the storage, the status and the brush after the
call. -/
def GdipSetLineBlend_at (heap : Heap) (brush : Option GpLineGradientAt)
    (blend positions : Option (Nat → IEEE)) (count : Int) (blendFactors blendPositions : Nat)
    (junk : Nat → IEEE) : Option (Heap × GpStatus × Option GpLineGradientAt) :=
  match brush, blend, positions with
  | none, _, _ => some (heap, InvalidParameter, brush)
  | some _, none, _ => some (heap, InvalidParameter, brush)
  | some _, some _, none => some (heap, InvalidParameter, brush)
  | some b, some blend, some positions =>
    if ¬ (count ≥ 0) then some (heap, InvalidParameter, brush)
    else if b.blend.count ≠ count then
      let heap := GdipAlloc heap blendFactors (Block.floats junk)
      if blendFactors = 0 then some (heap, OutOfMemory, brush)
      else
        let heap := GdipAlloc heap blendPositions (Block.floats junk)
        if blendPositions = 0 then some (heap, OutOfMemory, brush)
        else
          match GdipFree heap b.blend.factors with
          | none => none
          | some heap =>
            match GdipFree heap b.blend.positions with
            | none => none
            | some heap =>
              let b := { b with blend := { b.blend with factors := blendFactors } }
              let b := { b with blend := { b.blend with positions := blendPositions } }
              GdipSetLineBlend_store_at heap b blend positions count
    else
      GdipSetLineBlend_store_at heap b blend positions count

/-- The copy loop of `GdipSetLinePresetBlend` over allocated storage. -/
def GdipSetLinePresetBlend_loop_at (brush : GpLineGradientAt) (blend : Nat → ARGB)
    (positions : Nat → IEEE) : Nat → Nat → Heap → Option Heap
  | 0, _, heap => some heap
  | todo + 1, index, heap =>
    match storeColorAt heap brush.presetColors.colors index (blend index) with
    | none => none
    | some heap =>
      match storeFloatAt heap brush.presetColors.positions index (positions index) with
      | none => none
      | some heap =>
        GdipSetLinePresetBlend_loop_at brush blend positions todo (index + 1) heap

/-- The part of `GdipSetLinePresetBlend` after the storage has been settled,
over allocated storage: the copy loop, the new count, and the release and
disabling of the blend curve. -/
def GdipSetLinePresetBlend_store_at (heap : Heap) (brush : GpLineGradientAt)
    (blend : Nat → ARGB) (positions : Nat → IEEE) (count : Int) :
    Option (Heap × GpStatus × Option GpLineGradientAt) :=
  match GdipSetLinePresetBlend_loop_at brush blend positions count.toNat 0 heap with
  | none => none
  | some heap =>
    let brush := { brush with presetColors := { brush.presetColors with count := count } }
    if brush.blend.count ≠ -1 then
      match GdipFree heap brush.blend.factors with
      | none => none
      | some heap =>
        match GdipFree heap brush.blend.positions with
        | none => none
        | some heap =>
          some (heap, Ok, some { brush with blend := { brush.blend with count := -1 } })
    else
      some (heap, Ok, some brush)

/-- The `GdipSetLinePresetBlend` of the source over allocated storage, with
the conventions of `GdipSetLineBlend_at`; `junkColors` and `junk` are the
contents of the two fresh blocks. -/
def GdipSetLinePresetBlend_at (heap : Heap) (brush : Option GpLineGradientAt)
    (blend : Option (Nat → ARGB)) (positions : Option (Nat → IEEE)) (count : Int)
    (blendColors blendPositions : Nat) (junkColors : Nat → ARGB) (junk : Nat → IEEE) :
    Option (Heap × GpStatus × Option GpLineGradientAt) :=
  match brush, blend, positions with
  | none, _, _ => some (heap, InvalidParameter, brush)
  | some _, none, _ => some (heap, InvalidParameter, brush)
  | some _, some _, none => some (heap, InvalidParameter, brush)
  | some b, some blend, some positions =>
    if ¬ (count ≥ 0) then some (heap, InvalidParameter, brush)
    else if b.presetColors.count ≠ count then
      let heap := GdipAlloc heap blendColors (Block.colors junkColors)
      if blendColors = 0 then some (heap, OutOfMemory, brush)
      else
        let heap := GdipAlloc heap blendPositions (Block.floats junk)
        if blendPositions = 0 then some (heap, OutOfMemory, brush)
        else
          match GdipFree heap b.presetColors.colors with
          | none => none
          | some heap =>
            match GdipFree heap b.presetColors.positions with
            | none => none
            | some heap =>
              let b := { b with presetColors := { b.presetColors with colors := blendColors } }
              let b := { b with
                presetColors := { b.presetColors with positions := blendPositions } }
              GdipSetLinePresetBlend_store_at heap b blend positions count
    else
      GdipSetLinePresetBlend_store_at heap b blend positions count

/-! ## Sample values used by the witnesses -/

/-- A block of `float` storage holding zeros. -/
def zeroCells : Nat → ℚ := fun _ => 0

/-- A block of `ARGB` storage holding zeros. -/
def zeroColors : Nat → ARGB := fun _ => 0

/-- Storage for a brush before it is initialised. -/
def rawBrush : GpLineGradient :=
  { base := ⟨none⟩, wrapMode := WrapModeClamp, matrix := ⟨0, 0, 0, 0, 0, 0⟩,
    rectangle := none, gammaCorrection := true, angle := 7, isAngleScalable := true,
    lineColors := (0, 0), points := (⟨0, 0⟩, ⟨0, 0⟩),
    presetColors := ⟨zeroColors, zeroCells, 0⟩, blend := ⟨zeroCells, zeroCells, 0⟩ }

/-- The brush `gdip_linear_gradient_init` makes of `rawBrush`. -/
def sampleBrush : GpLineGradient :=
  gdip_linear_gradient_init rawBrush ⟨zeroColors, zeroCells, 0⟩ ⟨zeroCells, zeroCells, 0⟩

/-- The brush `GdipCreateLineBrush` builds for the line (0,0)-(10,10) from
black to white. -/
def lineBrush : GpLineGradient :=
  { sampleBrush with
    rectangle := some ⟨0, 0, 10, 10⟩, lineColors := (0xFF000000, 0xFFFFFFFF),
    points := (⟨0, 0⟩, ⟨10, 10⟩) }

/-- The brush `GdipSetLinePresetBlend` makes of `lineBrush` when given a ramp
of two colours (red at 0, blue at 1). -/
def rampBrush : GpLineGradient :=
  GdipSetLinePresetBlend_store
    { lineBrush with presetColors := ⟨zeroColors, zeroCells, lineBrush.presetColors.count⟩ }
    (fun i => if i = 0 then 0xFFFF0000 else 0xFF0000FF) (fun i => i) 2

/-- A graphics whose drawing context has received no call yet. -/
def sampleGraphics : GpGraphics := ⟨some []⟩

/-- A fresh block for the blend curve of a clone, as zero-filled storage
gives it: its `count` field holds 0 on arrival. -/
def staleBlendBlock : Blend := ⟨zeroCells, zeroCells, 0⟩

/-- The calls one run of `create_tile_linear` adds to the drawing context when
the rectangle of the brush is `r` and the linear paint ends up holding the
stops `pattern`: used to state what the fill engine is handed. -/
def tile_calls (linear : GpLineGradient) (r : GpRectF) (pattern : cairo_pattern_t) : cairo_t :=
  [cairo_call.cairo_save,
   cairo_call.cairo_rectangle r.X r.Y r.Width r.Height,
   cairo_call.cairo_set_pattern
     (cairo_source.linear linear.points.1.X linear.points.1.Y
       linear.points.2.X linear.points.2.Y pattern),
   cairo_call.cairo_rotate linear.angle,
   cairo_call.cairo_fill,
   cairo_call.cairo_restore,
   cairo_call.cairo_set_pattern
     (cairo_source.surface cairo_extend_t.CAIRO_EXTEND_REPEAT linear.matrix)]

/-- A block of `float` storage holding zeros, as floating-point data. -/
def zeroFloats : Nat → IEEE := fun _ => IEEE.num 0

/-- Storage in which no block is allocated. -/
def emptyHeap : Heap := fun _ => none

/-- Storage for a brush over allocated storage before it is initialised. -/
def rawBrushAt : GpLineGradientAt :=
  { base := ⟨none⟩, wrapMode := WrapModeClamp, matrix := ⟨0, 0, 0, 0, 0, 0⟩,
    rectangle := none, gammaCorrection := true, angle := IEEE.num 7, isAngleScalable := true,
    lineColors := (0, 0),
    points := (⟨IEEE.num 0, IEEE.num 0⟩, ⟨IEEE.num 0, IEEE.num 0⟩),
    presetColors := ⟨0, 0, 0⟩, blend := ⟨0, 0, 0⟩ }

/-- Storage holding two blocks of floats, at the addresses 64 and 68. -/
def luckyHeap : Heap :=
  fun p => if p = 64 ∨ p = 68 then some (Block.floats zeroFloats) else none

/-- Storage holding the two arrays of a blend curve of one control point, at
the addresses 11 and 12. -/
def curveHeap : Heap :=
  fun p =>
    if p = 11 then some (Block.floats (fun _ => IEEE.num 1))
    else if p = 12 then some (Block.floats (fun _ => IEEE.num 0))
    else none

/-- A brush whose blend curve owns the two arrays of `curveHeap` (count 1) and
whose preset ramp is disabled (count -1), its two pointers null. -/
def curveBrushAt : GpLineGradientAt :=
  { base := ⟨some vtable⟩, wrapMode := WrapModeTile, matrix := cairo_matrix_create,
    rectangle := some ⟨IEEE.num 0, IEEE.num 0, IEEE.num 10, IEEE.num 10⟩,
    gammaCorrection := false, angle := IEEE.num 0,
    isAngleScalable := false, lineColors := (0xFF000000, 0xFFFFFFFF),
    points := (⟨IEEE.num 0, IEEE.num 0⟩, ⟨IEEE.num 10, IEEE.num 10⟩),
    presetColors := ⟨0, 0, -1⟩, blend := ⟨11, 12, 1⟩ }

/-- The brush `curveBrushAt` with the two pointers of its disabled preset ramp
holding what a fresh block happened to contain: 77 and 78, addresses of no
allocated block. -/
def freshBrushAt : GpLineGradientAt :=
  { curveBrushAt with presetColors := ⟨77, 78, -1⟩ }

/-- A ramp of two colours: red, then blue. -/
def twoColors : Nat → ARGB := fun i => if i = 0 then 0xFFFF0000 else 0xFF0000FF

/-- Two offsets: 0, then 1. -/
def twoOffsets : Nat → IEEE := fun i => if i = 0 then IEEE.num 0 else IEEE.num 1

/-- A blend curve of one control point whose factor is 481065 / 2^58, a
`float` between 0 and 1. -/
def tinyFactorBlend : BlendIEEE :=
  ⟨fun _ => IEEE.num (481065 / 2 ^ 58), fun _ => IEEE.num 0, 1⟩

/-- A rectangle holding zeros, as floating-point data. -/
def zeroRectIEEE : GpRectFIEEE := ⟨IEEE.num 0, IEEE.num 0, IEEE.num 0, IEEE.num 0⟩

/-- The rectangle (1, 2, 30, 40) as floating-point data. -/
def sampleRectIEEE : GpRectFIEEE := ⟨IEEE.num 1, IEEE.num 2, IEEE.num 30, IEEE.num 40⟩

/-- The rectangle at (1, 0) of width 33554432 (two to the power 25) and
height 0, as floating-point data. -/
def wideRectIEEE : GpRectFIEEE := ⟨IEEE.num 1, IEEE.num 0, IEEE.num 33554432, IEEE.num 0⟩

/-! ## Lemmas on the loops -/

theorem shift_mask_eq_channel (color k : Nat) : (color >>> k) &&& 0xFF = channel color k := by
  unfold channel
  rw [Nat.shiftRight_eq_div_pow]
  exact Nat.and_pow_two_sub_one_eq_mod _ 8

theorem mask_eq_channel (color : Nat) : color &&& 0xFF = channel color 0 := by
  unfold channel
  rw [pow_zero, Nat.div_one]
  exact Nat.and_pow_two_sub_one_eq_mod _ 8

theorem GdipSetLineBlend_loop_spec (blend positions : Nat → ℚ) (todo : Nat) :
    ∀ (index : Nat) (brush : GpLineGradient),
      let r := GdipSetLineBlend_loop blend positions todo index brush
      r.blend.count = brush.blend.count ∧ r.presetColors = brush.presetColors ∧
      (∀ i, index ≤ i → i < index + todo →
        r.blend.factors i = blend i ∧ r.blend.positions i = positions i) ∧
      (∀ i, i < index →
        r.blend.factors i = brush.blend.factors i ∧
        r.blend.positions i = brush.blend.positions i) := by
  induction todo with
  | zero =>
    intro index brush
    exact ⟨rfl, rfl, fun i h1 h2 => absurd h2 (by omega), fun i _ => ⟨rfl, rfl⟩⟩
  | succ n ih =>
    intro index brush
    simp only [GdipSetLineBlend_loop]
    obtain ⟨h1, h2, h3, h4⟩ := ih (index + 1) _
    refine ⟨h1, h2, ?_, ?_⟩
    · intro i hi1 hi2
      rcases Nat.eq_or_lt_of_le hi1 with heq | hlt
      · subst heq
        have := h4 index (Nat.lt_succ_self _)
        simpa using this
      · exact h3 i hlt (by omega)
    · intro i hi
      have := h4 i (by omega)
      have hne : i ≠ index := by omega
      simpa [Function.update_noteq hne] using this

theorem GdipSetLinePresetBlend_loop_spec (blend : Nat → ARGB) (positions : Nat → ℚ)
    (todo : Nat) :
    ∀ (index : Nat) (brush : GpLineGradient),
      let r := GdipSetLinePresetBlend_loop blend positions todo index brush
      r.presetColors.count = brush.presetColors.count ∧ r.blend = brush.blend ∧
      (∀ i, index ≤ i → i < index + todo →
        r.presetColors.colors i = blend i ∧ r.presetColors.positions i = positions i) ∧
      (∀ i, i < index →
        r.presetColors.colors i = brush.presetColors.colors i ∧
        r.presetColors.positions i = brush.presetColors.positions i) := by
  induction todo with
  | zero =>
    intro index brush
    exact ⟨rfl, rfl, fun i h1 h2 => absurd h2 (by omega), fun i _ => ⟨rfl, rfl⟩⟩
  | succ n ih =>
    intro index brush
    simp only [GdipSetLinePresetBlend_loop]
    obtain ⟨h1, h2, h3, h4⟩ := ih (index + 1) _
    refine ⟨h1, h2, ?_, ?_⟩
    · intro i hi1 hi2
      rcases Nat.eq_or_lt_of_le hi1 with heq | hlt
      · subst heq
        have := h4 index (Nat.lt_succ_self _)
        simpa using this
      · exact h3 i hlt (by omega)
    · intro i hi
      have := h4 i (by omega)
      have hne : i ≠ index := by omega
      simpa [Function.update_noteq hne] using this

theorem GdipSetLineBlend_store_spec (b : GpLineGradient) (blend positions : Nat → ℚ)
    (count : Int) :
    (GdipSetLineBlend_store b blend positions count).blend.count = count ∧
    (GdipSetLineBlend_store b blend positions count).presetColors.count = -1 ∧
    ∀ i : Nat, (i : Int) < count →
      (GdipSetLineBlend_store b blend positions count).blend.factors i = blend i ∧
      (GdipSetLineBlend_store b blend positions count).blend.positions i = positions i := by
  obtain ⟨_, h2, h3, _⟩ := GdipSetLineBlend_loop_spec blend positions count.toNat 0 b
  unfold GdipSetLineBlend_store
  simp only []
  split_ifs with h
  · refine ⟨rfl, rfl, ?_⟩
    intro i hi
    exact h3 i (Nat.zero_le _) (by omega)
  · refine ⟨rfl, ?_, ?_⟩
    · simpa using h
    · intro i hi
      exact h3 i (Nat.zero_le _) (by omega)

theorem GdipSetLinePresetBlend_store_spec (b : GpLineGradient) (blend : Nat → ARGB)
    (positions : Nat → ℚ) (count : Int) :
    (GdipSetLinePresetBlend_store b blend positions count).presetColors.count = count ∧
    (GdipSetLinePresetBlend_store b blend positions count).blend.count = -1 ∧
    ∀ i : Nat, (i : Int) < count →
      (GdipSetLinePresetBlend_store b blend positions count).presetColors.colors i = blend i ∧
      (GdipSetLinePresetBlend_store b blend positions count).presetColors.positions i
        = positions i := by
  obtain ⟨_, h2, h3, _⟩ := GdipSetLinePresetBlend_loop_spec blend positions count.toNat 0 b
  unfold GdipSetLinePresetBlend_store
  simp only []
  split_ifs with h
  · refine ⟨rfl, rfl, ?_⟩
    intro i hi
    exact h3 i (Nat.zero_le _) (by omega)
  · refine ⟨rfl, ?_, ?_⟩
    · simpa using h
    · intro i hi
      exact h3 i (Nat.zero_le _) (by omega)

theorem exactlyOneActive_of_blend {b : GpLineGradient} (h1 : b.blend.count ≥ 0)
    (h2 : b.presetColors.count = -1) : ExactlyOneActive b := by
  refine ⟨Or.inl h1, ?_⟩
  rintro ⟨_, h⟩
  omega

theorem exactlyOneActive_of_preset {b : GpLineGradient} (h1 : b.presetColors.count ≥ 0)
    (h2 : b.blend.count = -1) : ExactlyOneActive b := by
  refine ⟨Or.inr h1, ?_⟩
  rintro ⟨h, _⟩
  omega

theorem exactlyOneActive_congr {b b' : GpLineGradient} (h1 : b'.blend.count = b.blend.count)
    (h2 : b'.presetColors.count = b.presetColors.count) (h : ExactlyOneActive b) :
    ExactlyOneActive b' := by
  unfold ExactlyOneActive at *
  rw [h1, h2]
  exact h

theorem gdip_linear_gradient_new_counts {result presetColors blend} {b : GpLineGradient}
    (h : gdip_linear_gradient_new result presetColors blend = some b) :
    b.blend.count = 1 ∧ b.presetColors.count = -1 := by
  unfold gdip_linear_gradient_new at h
  cases result with
  | none => simp at h
  | some r =>
    simp only [Option.some.injEq] at h
    subst h
    exact ⟨rfl, rfl⟩

theorem GdipCreateLineBrush_counts {point1 point2 color1 color2 wrapMode lineGradient rect
    result presetColors blend} {b : GpLineGradient}
    (h : GdipCreateLineBrush point1 point2 color1 color2 wrapMode lineGradient rect result
      presetColors blend = (Ok, some (some b))) :
    b.blend.count = 1 ∧ b.presetColors.count = -1 := by
  unfold GdipCreateLineBrush at h
  split at h
  · simp at h
  · simp at h
  · simp at h
  · split at h
    · simp at h
    · split at h
      · simp at h
      · rename_i linear hnew
        have hc := gdip_linear_gradient_new_counts hnew
        simp only [Prod.mk.injEq, Option.some.injEq, true_and] at h
        subst h
        exact hc

theorem GdipCreateLineBrushFromRectWithAngle_counts {rect color1 color2 angle isAngleScalable
    wrapMode lineGradient result presetColors blend rectangle} {b : GpLineGradient}
    (h : GdipCreateLineBrushFromRectWithAngle rect color1 color2 angle isAngleScalable wrapMode
      lineGradient result presetColors blend rectangle = (Ok, some (some b))) :
    b.blend.count = 1 ∧ b.presetColors.count = -1 := by
  unfold GdipCreateLineBrushFromRectWithAngle at h
  split at h
  · simp at h
  · simp at h
  · split at h
    · simp at h
    · rename_i linear hnew
      have hc := gdip_linear_gradient_new_counts hnew
      split at h
      · simp at h
      · simp only [Prod.mk.injEq, Option.some.injEq, true_and] at h
        subst h
        exact hc

theorem GdipSetLineBlend_cases (b : GpLineGradient) (blend positions count blendFactors
    blendPositions) :
    GdipSetLineBlend (some b) blend positions count blendFactors blendPositions
        = (InvalidParameter, some b) ∧ (blend = none ∨ positions = none ∨ count < 0) ∨
    GdipSetLineBlend (some b) blend positions count blendFactors blendPositions
        = (OutOfMemory, some b) ∧ blend ≠ none ∧ positions ≠ none ∧ count ≥ 0 ∨
    ∃ b', GdipSetLineBlend (some b) blend positions count blendFactors blendPositions
        = (Ok, some b') ∧ blend ≠ none ∧ positions ≠ none ∧ count ≥ 0 ∧
        b'.blend.count = count ∧ b'.presetColors.count = -1 := by
  unfold GdipSetLineBlend
  cases blend with
  | none => exact Or.inl ⟨rfl, Or.inl rfl⟩
  | some blend =>
    cases positions with
    | none => exact Or.inl ⟨rfl, Or.inr (Or.inl rfl)⟩
    | some positions =>
      simp only []
      by_cases hcount : count ≥ 0
      · rw [if_neg (not_not_intro hcount)]
        split_ifs with hne
        · cases blendFactors with
          | none => exact Or.inr (Or.inl ⟨rfl, by simp, by simp, hcount⟩)
          | some blendFactors =>
            cases blendPositions with
            | none => exact Or.inr (Or.inl ⟨rfl, by simp, by simp, hcount⟩)
            | some blendPositions =>
              refine Or.inr (Or.inr ⟨_, rfl, by simp, by simp, hcount, ?_, ?_⟩)
              · exact (GdipSetLineBlend_store_spec _ _ _ _).1
              · exact (GdipSetLineBlend_store_spec _ _ _ _).2.1
        · refine Or.inr (Or.inr ⟨_, rfl, by simp, by simp, hcount, ?_, ?_⟩)
          · exact (GdipSetLineBlend_store_spec _ _ _ _).1
          · exact (GdipSetLineBlend_store_spec _ _ _ _).2.1
      · rw [if_pos hcount]
        exact Or.inl ⟨rfl, Or.inr (Or.inr (by omega))⟩

theorem GdipSetLinePresetBlend_cases (b : GpLineGradient) (blend positions count blendColors
    blendPositions) :
    GdipSetLinePresetBlend (some b) blend positions count blendColors blendPositions
        = (InvalidParameter, some b) ∧ (blend = none ∨ positions = none ∨ count < 0) ∨
    GdipSetLinePresetBlend (some b) blend positions count blendColors blendPositions
        = (OutOfMemory, some b) ∧ blend ≠ none ∧ positions ≠ none ∧ count ≥ 0 ∨
    ∃ b', GdipSetLinePresetBlend (some b) blend positions count blendColors blendPositions
        = (Ok, some b') ∧ blend ≠ none ∧ positions ≠ none ∧ count ≥ 0 ∧
        b'.presetColors.count = count ∧ b'.blend.count = -1 := by
  unfold GdipSetLinePresetBlend
  cases blend with
  | none => exact Or.inl ⟨rfl, Or.inl rfl⟩
  | some blend =>
    cases positions with
    | none => exact Or.inl ⟨rfl, Or.inr (Or.inl rfl)⟩
    | some positions =>
      simp only []
      by_cases hcount : count ≥ 0
      · rw [if_neg (not_not_intro hcount)]
        split_ifs with hne
        · cases blendColors with
          | none => exact Or.inr (Or.inl ⟨rfl, by simp, by simp, hcount⟩)
          | some blendColors =>
            cases blendPositions with
            | none => exact Or.inr (Or.inl ⟨rfl, by simp, by simp, hcount⟩)
            | some blendPositions =>
              refine Or.inr (Or.inr ⟨_, rfl, by simp, by simp, hcount, ?_, ?_⟩)
              · exact (GdipSetLinePresetBlend_store_spec _ _ _ _).1
              · exact (GdipSetLinePresetBlend_store_spec _ _ _ _).2.1
        · refine Or.inr (Or.inr ⟨_, rfl, by simp, by simp, hcount, ?_, ?_⟩)
          · exact (GdipSetLinePresetBlend_store_spec _ _ _ _).1
          · exact (GdipSetLinePresetBlend_store_spec _ _ _ _).2.1
      · rw [if_pos hcount]
        exact Or.inl ⟨rfl, Or.inr (Or.inr (by omega))⟩

theorem lineBrush_created :
    GdipCreateLineBrush (some ⟨0, 0⟩) (some ⟨10, 10⟩) 0xFF000000 0xFFFFFFFF WrapModeTile
      (some none) (some ⟨0, 0, 0, 0⟩) (some rawBrush) ⟨zeroColors, zeroCells, 0⟩
      ⟨zeroCells, zeroCells, 0⟩ = (Ok, some (some lineBrush)) := by
  norm_num [GdipCreateLineBrush, gdip_linear_gradient_new, gdip_set_rect, lineBrush,
    sampleBrush, gdip_linear_gradient_init]

theorem rampBrush_set :
    (GdipSetLinePresetBlend (some lineBrush)
      (some (fun i => if i = 0 then 0xFFFF0000 else 0xFF0000FF)) (some (fun i => i)) 2
      (some zeroColors) (some zeroCells)).2 = some rampBrush := by
  have h : lineBrush.presetColors.count ≠ 2 := by decide
  simp only [GdipSetLinePresetBlend, h]
  rfl

theorem rampBrush_reachable : Reachable rampBrush :=
  Reachable.setLinePresetBlend lineBrush rampBrush _ _ 2 _ _
    (Reachable.createLineBrush _ _ _ _ _ _ _ _ _ _ lineBrush lineBrush_created)
    rampBrush_set

/-! ## Blend curve and preset ramp -/

/-- C3: in every brush state reachable from a freshly constructed brush by
any sequence of calls of the mutators, successful or failing, exactly one of
`blend->count >= 0` and `presetColors->count >= 0` holds: at least one of them,
and not both. -/
theorem reachable_exactly_one_active (b : GpLineGradient) (h : Reachable b) :
    (b.blend.count ≥ 0 ∨ b.presetColors.count ≥ 0) ∧
    ¬ (b.blend.count ≥ 0 ∧ b.presetColors.count ≥ 0) := by
  have fresh : ∀ {b : GpLineGradient}, b.blend.count = 1 ∧ b.presetColors.count = -1 →
      ExactlyOneActive b := fun hc =>
    exactlyOneActive_of_blend (by rw [hc.1]; decide) hc.2
  change ExactlyOneActive b
  induction h with
  | createLineBrush _ _ _ _ _ _ _ _ _ _ b hb => exact fresh (GdipCreateLineBrush_counts hb)
  | createLineBrushI point1 point2 _ _ _ _ _ _ _ _ b hb =>
    unfold GdipCreateLineBrushI at hb
    split at hb
    · simp at hb
    · simp at hb
    · exact fresh (GdipCreateLineBrush_counts hb)
  | createLineBrushFromRect _ _ _ _ _ _ _ _ _ _ b hb =>
    exact fresh (GdipCreateLineBrushFromRectWithAngle_counts hb)
  | createLineBrushFromRectI rect _ _ _ _ _ _ _ _ _ b hb =>
    unfold GdipCreateLineBrushFromRectI at hb
    split at hb
    · simp at hb
    · exact fresh (GdipCreateLineBrushFromRectWithAngle_counts hb)
  | createLineBrushFromRectWithAngle _ _ _ _ _ _ _ _ _ _ _ b hb =>
    exact fresh (GdipCreateLineBrushFromRectWithAngle_counts hb)
  | createLineBrushFromRectWithAngleI rect _ _ _ _ _ _ _ _ _ _ b hb =>
    unfold GdipCreateLineBrushFromRectWithAngleI at hb
    split at hb
    · simp at hb
    · exact fresh (GdipCreateLineBrushFromRectWithAngle_counts hb)
  | setLineBlend b b' blend positions count bf bp _ hstep ih =>
    rcases GdipSetLineBlend_cases b blend positions count bf bp with
      ⟨he, _⟩ | ⟨he, _⟩ | ⟨c, he, _, _, hc, h1, h2⟩
    · rw [he] at hstep
      cases hstep
      exact ih
    · rw [he] at hstep
      cases hstep
      exact ih
    · rw [he] at hstep
      cases hstep
      exact exactlyOneActive_of_blend (by rw [h1]; exact hc) h2
  | setLinePresetBlend b b' blend positions count bc bp _ hstep ih =>
    rcases GdipSetLinePresetBlend_cases b blend positions count bc bp with
      ⟨he, _⟩ | ⟨he, _⟩ | ⟨c, he, _, _, hc, h1, h2⟩
    · rw [he] at hstep
      cases hstep
      exact ih
    · rw [he] at hstep
      cases hstep
      exact ih
    · rw [he] at hstep
      cases hstep
      exact exactlyOneActive_of_preset (by rw [h1]; exact hc) h2
  | setLineGammaCorrection b b' g _ hstep ih =>
    cases hstep
    exact exactlyOneActive_congr rfl rfl ih
  | setLineColors b b' c1 c2 _ hstep ih =>
    cases hstep
    exact exactlyOneActive_congr rfl rfl ih
  | setLineTransform b b' matrix _ hstep ih =>
    cases matrix with
    | none =>
      cases hstep
      exact ih
    | some m =>
      cases hstep
      exact exactlyOneActive_congr rfl rfl ih
  | setLineWrapMode b b' wrapMode _ hstep ih =>
    unfold GdipSetLineWrapMode at hstep
    simp only [] at hstep
    split_ifs at hstep
    · cases hstep
      exact ih
    · cases hstep
      exact exactlyOneActive_congr rfl rfl ih
  | setLineLinearBlend b b' _ _ _ hstep ih =>
    cases hstep
    exact ih
  | setLineSigmaBlend b b' _ _ _ hstep ih =>
    cases hstep
    exact ih
  | multiplyLineTransform b b' f matrix order _ hstep ih =>
    cases matrix with
    | none =>
      cases hstep
      exact ih
    | some m =>
      cases hstep
      exact exactlyOneActive_congr rfl rfl ih
  | resetLineTransform b b' f g _ hstep ih =>
    cases hstep
    exact exactlyOneActive_congr rfl rfl ih
  | rotateLineTransform b b' f angle order _ hstep ih =>
    cases hstep
    exact exactlyOneActive_congr rfl rfl ih
  | scaleLineTransform b b' f sx sy order _ hstep ih =>
    cases hstep
    exact exactlyOneActive_congr rfl rfl ih
  | translateLineTransform b b' f dx dy order _ hstep ih =>
    cases hstep
    exact exactlyOneActive_congr rfl rfl ih

/-- Witness of C3: the brush made by `GdipCreateLineBrush` and then given a
preset ramp is reachable and has exactly one active structure. -/
theorem reachable_exactly_one_active_witness :
    Reachable rampBrush ∧
    ((rampBrush.blend.count ≥ 0 ∨ rampBrush.presetColors.count ≥ 0) ∧
      ¬ (rampBrush.blend.count ≥ 0 ∧ rampBrush.presetColors.count ≥ 0)) :=
  ⟨rampBrush_reachable, reachable_exactly_one_active rampBrush rampBrush_reachable⟩

/-! ## Colour stops -/

theorem add_color_stops_from_blend_loop_eq (blend : Blend) (sr sg sb sa er eg eb ea : ℚ)
    (todo : Nat) :
    ∀ (index : Nat) (pattern : cairo_pattern_t),
      add_color_stops_from_blend_loop blend sr sg sb sa er eg eb ea todo index pattern =
        pattern ++ (List.range' index todo).map (fun i =>
          { offset := blend.positions i,
            red := sr * blend.factors i + er * (1 - blend.factors i),
            green := sg * blend.factors i + eg * (1 - blend.factors i),
            blue := sb * blend.factors i + eb * (1 - blend.factors i),
            alpha := sa * blend.factors i + ea * (1 - blend.factors i) }) := by
  induction todo with
  | zero =>
    intro index pattern
    simp [add_color_stops_from_blend_loop]
  | succ n ih =>
    intro index pattern
    simp only [add_color_stops_from_blend_loop, ih, cairo_pattern_add_color_stop,
      List.range'_succ, List.map_cons, List.append_assoc, List.singleton_append]

theorem add_color_stops_from_interpolation_colors_loop_eq (presetColors : InterpolationColors)
    (todo : Nat) :
    ∀ (index : Nat) (pattern : cairo_pattern_t),
      add_color_stops_from_interpolation_colors_loop presetColors todo index pattern =
        pattern ++ (List.range' index todo).map (fun i =>
          { offset := presetColors.positions i,
            red := ((channel (presetColors.colors i) 16 : Nat) : ℚ),
            green := ((channel (presetColors.colors i) 8 : Nat) : ℚ),
            blue := ((channel (presetColors.colors i) 0 : Nat) : ℚ),
            alpha := ((channel (presetColors.colors i) 24 : Nat) : ℚ) }) := by
  induction todo with
  | zero =>
    intro index pattern
    simp [add_color_stops_from_interpolation_colors_loop]
  | succ n ih =>
    intro index pattern
    simp only [add_color_stops_from_interpolation_colors_loop, shift_mask_eq_channel]
    simp only [ih, mask_eq_channel, cairo_pattern_add_color_stop, List.range'_succ,
      List.map_cons, List.append_assoc, List.singleton_append]

/-- C5: `add_color_stops_from_interpolation_colors` appends, in stored order,
exactly one stop per control point `i < count`, at offset `positions[i]`, whose
A, R, G and B values are the 8-bit components of `colors[i]` at bits 24-31,
16-23, 8-15 and 0-7; nothing else enters the result. -/
theorem add_color_stops_from_interpolation_colors_emits (pattern : cairo_pattern_t)
    (presetColors : InterpolationColors) :
    add_color_stops_from_interpolation_colors pattern presetColors =
      pattern ++ (List.range presetColors.count.toNat).map (fun i =>
        { offset := presetColors.positions i,
          alpha := ((channel (presetColors.colors i) 24 : Nat) : ℚ),
          red := ((channel (presetColors.colors i) 16 : Nat) : ℚ),
          green := ((channel (presetColors.colors i) 8 : Nat) : ℚ),
          blue := ((channel (presetColors.colors i) 0 : Nat) : ℚ) }) := by
  unfold add_color_stops_from_interpolation_colors
  simp only [add_color_stops_from_interpolation_colors_loop_eq, List.range_eq_range']

/-- C8: `GdipSetLineWrapMode` called with `WrapModeClamp` returns
`InvalidParameter` and leaves the brush as it was; called on a non-null brush
with any other wrap mode it returns `Ok` and the brush's wrap mode becomes
that mode, nothing else changing. -/
theorem GdipSetLineWrapMode_clamp (brush : Option GpLineGradient) (b : GpLineGradient)
    (wrapMode : GpWrapMode) :
    GdipSetLineWrapMode brush WrapModeClamp = (InvalidParameter, brush) ∧
    (wrapMode ≠ WrapModeClamp →
      GdipSetLineWrapMode (some b) wrapMode = (Ok, some { b with wrapMode := wrapMode })) := by
  refine ⟨?_, ?_⟩
  · cases brush <;> simp [GdipSetLineWrapMode]
  · intro h
    simp [GdipSetLineWrapMode, h]

/-- Witness of C8: `WrapModeTileFlipX` is accepted on the sample brush. -/
theorem GdipSetLineWrapMode_clamp_witness :
    WrapModeTileFlipX ≠ WrapModeClamp ∧
    GdipSetLineWrapMode (some sampleBrush) WrapModeTileFlipX =
      (Ok, some { sampleBrush with wrapMode := WrapModeTileFlipX }) :=
  ⟨by decide, (GdipSetLineWrapMode_clamp none sampleBrush WrapModeTileFlipX).2 (by decide)⟩

/-- C9: `GdipSetLineBlend` and `GdipSetLinePresetBlend` return
`InvalidParameter` exactly when the brush is null, an array is absent or the
count is negative (whatever the allocations do, so also when they succeed);
and whenever either returns a status other than `Ok`, the brush is exactly
what it was before the call. -/
theorem set_blend_failure_leaves_brush (brush : Option GpLineGradient)
    (blend positions : Option (Nat → ℚ)) (colors : Option (Nat → ARGB)) (count : Int)
    (blendFactors blendPositions : Option (Nat → ℚ)) (blendColors : Option (Nat → ARGB)) :
    ((GdipSetLineBlend brush blend positions count blendFactors blendPositions).1
        = InvalidParameter ↔
      (brush = none ∨ blend = none ∨ positions = none ∨ count < 0)) ∧
    ((GdipSetLineBlend brush blend positions count blendFactors blendPositions).1 ≠ Ok →
      (GdipSetLineBlend brush blend positions count blendFactors blendPositions).2 = brush) ∧
    ((GdipSetLinePresetBlend brush colors positions count blendColors blendPositions).1
        = InvalidParameter ↔
      (brush = none ∨ colors = none ∨ positions = none ∨ count < 0)) ∧
    ((GdipSetLinePresetBlend brush colors positions count blendColors blendPositions).1 ≠ Ok →
      (GdipSetLinePresetBlend brush colors positions count blendColors blendPositions).2
        = brush) := by
  cases brush with
  | none => simp [GdipSetLineBlend, GdipSetLinePresetBlend]
  | some b =>
    refine ⟨?_, ?_, ?_, ?_⟩
    · rcases GdipSetLineBlend_cases b blend positions count blendFactors blendPositions with
        ⟨he, h⟩ | ⟨he, h1, h2, h3⟩ | ⟨c, he, h1, h2, h3, _⟩
      · rw [he]
        simp [h]
      · rw [he]
        simp [h1, h2, not_lt.mpr h3]
      · rw [he]
        simp [h1, h2, not_lt.mpr h3]
    · rcases GdipSetLineBlend_cases b blend positions count blendFactors blendPositions with
        ⟨he, _⟩ | ⟨he, _⟩ | ⟨c, he, _⟩
      · rw [he]
        simp
      · rw [he]
        simp
      · rw [he]
        simp
    · rcases GdipSetLinePresetBlend_cases b colors positions count blendColors
        blendPositions with ⟨he, h⟩ | ⟨he, h1, h2, h3⟩ | ⟨c, he, h1, h2, h3, _⟩
      · rw [he]
        simp [h]
      · rw [he]
        simp [h1, h2, not_lt.mpr h3]
      · rw [he]
        simp [h1, h2, not_lt.mpr h3]
    · rcases GdipSetLinePresetBlend_cases b colors positions count blendColors
        blendPositions with ⟨he, _⟩ | ⟨he, _⟩ | ⟨c, he, _⟩
      · rw [he]
        simp
      · rw [he]
        simp
      · rw [he]
        simp

/-- Witness of C9: on the sample brush a failing second allocation and a
negative count both leave the brush as it was. -/
theorem set_blend_failure_leaves_brush_witness :
    ((GdipSetLineBlend (some sampleBrush) (some zeroCells) (some zeroCells) 2
        (some zeroCells) none).1 ≠ Ok ∧
      (GdipSetLineBlend (some sampleBrush) (some zeroCells) (some zeroCells) 2
        (some zeroCells) none).2 = some sampleBrush) ∧
    ((GdipSetLinePresetBlend (some sampleBrush) (some zeroColors) (some zeroCells) (-3)
        (some zeroColors) (some zeroCells)).1 ≠ Ok ∧
      (GdipSetLinePresetBlend (some sampleBrush) (some zeroColors) (some zeroCells) (-3)
        (some zeroColors) (some zeroCells)).2 = some sampleBrush) := by
  have h1 : (GdipSetLineBlend (some sampleBrush) (some zeroCells) (some zeroCells) 2
      (some zeroCells) none).1 ≠ Ok := by
    have h : sampleBrush.blend.count ≠ 2 := by decide
    simp [GdipSetLineBlend, h]
  have h2 : (GdipSetLinePresetBlend (some sampleBrush) (some zeroColors) (some zeroCells) (-3)
      (some zeroColors) (some zeroCells)).1 ≠ Ok := by
    simp [GdipSetLinePresetBlend]
  exact ⟨⟨h1, (set_blend_failure_leaves_brush (some sampleBrush) (some zeroCells)
      (some zeroCells) (some zeroColors) 2 (some zeroCells) none (some zeroColors)).2.1 h1⟩,
    ⟨h2, (set_blend_failure_leaves_brush (some sampleBrush) (some zeroCells)
      (some zeroCells) (some zeroColors) (-3) (some zeroCells) (some zeroCells)
      (some zeroColors)).2.2.2 h2⟩⟩

/-! ## Constructors -/

/-- C11, the code at a failing input: `gdip_linear_gradient_init` stores the
default control point through `blend->factors` and `blend->positions`, which no
statement has assigned.  On a zero-filled fresh block both are null and the
first store finds no cell; on a fresh block whose two fields happen to hold the
same address of a cell, that cell ends as 0, so `factors[0]` reads 0 and not
1. -/
theorem gdip_linear_gradient_init_blend_unassigned :
    gdip_linear_gradient_init_blend (fun _ => none) ⟨0, 0, 0⟩ = none ∧
    (gdip_linear_gradient_init_blend (fun a => if a = 64 then some 9 else none)
        ⟨64, 64, 0⟩).map (fun r => (r.2.count, r.1 r.2.factors, r.1 r.2.positions))
      = some (1, some 0, some 0) := by
  constructor
  · rfl
  · simp [gdip_linear_gradient_init_blend, storeFloat]

/-! ## Blend shortcuts -/

/-- C15: for every brush, focus and scale, `GdipSetLineLinearBlend` and
`GdipSetLineSigmaBlend` return `NotImplemented` and leave the brush, its blend
curve and preset ramp included, as it was. -/
theorem blend_shortcuts_not_implemented (brush : Option GpLineGradient) (focus scale : ℚ) :
    GdipSetLineLinearBlend brush focus scale = (NotImplemented, brush) ∧
    GdipSetLineSigmaBlend brush focus scale = (NotImplemented, brush) ∧
    (GdipSetLineLinearBlend brush focus scale).1 ≠ Ok ∧
    (GdipSetLineSigmaBlend brush focus scale).1 ≠ Ok :=
  ⟨rfl, rfl, by simp [GdipSetLineLinearBlend], by simp [GdipSetLineSigmaBlend]⟩

/-! ## Rectangle and counts of a reachable brush -/

theorem GdipSetLineBlend_loop_rectangle (blend positions : Nat → ℚ) (todo : Nat) :
    ∀ (index : Nat) (brush : GpLineGradient),
      (GdipSetLineBlend_loop blend positions todo index brush).rectangle = brush.rectangle := by
  induction todo with
  | zero =>
    intro index brush
    rfl
  | succ n ih =>
    intro index brush
    simp only [GdipSetLineBlend_loop]
    rw [ih]

theorem GdipSetLinePresetBlend_loop_rectangle (blend : Nat → ARGB) (positions : Nat → ℚ)
    (todo : Nat) :
    ∀ (index : Nat) (brush : GpLineGradient),
      (GdipSetLinePresetBlend_loop blend positions todo index brush).rectangle
        = brush.rectangle := by
  induction todo with
  | zero =>
    intro index brush
    rfl
  | succ n ih =>
    intro index brush
    simp only [GdipSetLinePresetBlend_loop]
    rw [ih]

theorem GdipSetLineBlend_store_rectangle (b : GpLineGradient) (blend positions : Nat → ℚ)
    (count : Int) : (GdipSetLineBlend_store b blend positions count).rectangle = b.rectangle := by
  unfold GdipSetLineBlend_store
  simp only []
  split_ifs <;> exact GdipSetLineBlend_loop_rectangle blend positions _ 0 b

theorem GdipSetLinePresetBlend_store_rectangle (b : GpLineGradient) (blend : Nat → ARGB)
    (positions : Nat → ℚ) (count : Int) :
    (GdipSetLinePresetBlend_store b blend positions count).rectangle = b.rectangle := by
  unfold GdipSetLinePresetBlend_store
  simp only []
  split_ifs <;> exact GdipSetLinePresetBlend_loop_rectangle blend positions _ 0 b

theorem GdipSetLineBlend_rectangle (b b' : GpLineGradient) (blend positions count blendFactors
    blendPositions)
    (h : (GdipSetLineBlend (some b) blend positions count blendFactors blendPositions).2
      = some b') : b'.rectangle = b.rectangle := by
  unfold GdipSetLineBlend at h
  cases blend with
  | none => cases h; rfl
  | some blend =>
    cases positions with
    | none => cases h; rfl
    | some positions =>
      simp only [] at h
      by_cases hc : count ≥ 0
      · rw [if_neg (not_not_intro hc)] at h
        by_cases hne : b.blend.count ≠ count
        · rw [if_pos hne] at h
          cases blendFactors with
          | none => cases h; rfl
          | some blendFactors =>
            cases blendPositions with
            | none => cases h; rfl
            | some blendPositions =>
              simp only [Option.some.injEq] at h
              rw [← h]
              exact GdipSetLineBlend_store_rectangle _ _ _ _
        · rw [if_neg hne] at h
          simp only [Option.some.injEq] at h
          rw [← h]
          exact GdipSetLineBlend_store_rectangle _ _ _ _
      · rw [if_pos hc] at h
        cases h
        rfl

theorem GdipSetLinePresetBlend_rectangle (b b' : GpLineGradient) (blend positions count
    blendColors blendPositions)
    (h : (GdipSetLinePresetBlend (some b) blend positions count blendColors blendPositions).2
      = some b') : b'.rectangle = b.rectangle := by
  unfold GdipSetLinePresetBlend at h
  cases blend with
  | none => cases h; rfl
  | some blend =>
    cases positions with
    | none => cases h; rfl
    | some positions =>
      simp only [] at h
      by_cases hc : count ≥ 0
      · rw [if_neg (not_not_intro hc)] at h
        by_cases hne : b.presetColors.count ≠ count
        · rw [if_pos hne] at h
          cases blendColors with
          | none => cases h; rfl
          | some blendColors =>
            cases blendPositions with
            | none => cases h; rfl
            | some blendPositions =>
              simp only [Option.some.injEq] at h
              rw [← h]
              exact GdipSetLinePresetBlend_store_rectangle _ _ _ _
        · rw [if_neg hne] at h
          simp only [Option.some.injEq] at h
          rw [← h]
          exact GdipSetLinePresetBlend_store_rectangle _ _ _ _
      · rw [if_pos hc] at h
        cases h
        rfl

theorem gdip_linear_gradient_new_some {result presetColors blend} {b : GpLineGradient}
    (h : gdip_linear_gradient_new result presetColors blend = some b) :
    ∃ r, result = some r ∧ b = gdip_linear_gradient_init r presetColors blend := by
  unfold gdip_linear_gradient_new at h
  cases result with
  | none => simp at h
  | some r =>
    simp only [Option.some.injEq] at h
    exact ⟨r, rfl, h.symm⟩

theorem GdipCreateLineBrush_rectangle {point1 point2 color1 color2 wrapMode lineGradient rect
    result presetColors blend} {b : GpLineGradient}
    (h : GdipCreateLineBrush point1 point2 color1 color2 wrapMode lineGradient rect result
      presetColors blend = (Ok, some (some b))) :
    ∃ r, b.rectangle = some r := by
  unfold GdipCreateLineBrush at h
  split at h
  · simp at h
  · simp at h
  · simp at h
  · split at h
    · simp at h
    · rename_i r0
      split at h
      · simp at h
      · simp only [Prod.mk.injEq, Option.some.injEq, true_and] at h
        subst h
        simp only [gdip_set_rect]
        split_ifs <;> exact ⟨_, rfl⟩

theorem GdipCreateLineBrushFromRectWithAngle_rectangle {rect color1 color2 angle
    isAngleScalable wrapMode lineGradient result presetColors blend rectangle}
    {b : GpLineGradient}
    (h : GdipCreateLineBrushFromRectWithAngle rect color1 color2 angle isAngleScalable wrapMode
      lineGradient result presetColors blend rectangle = (Ok, some (some b))) :
    ∃ r, b.rectangle = some r := by
  unfold GdipCreateLineBrushFromRectWithAngle at h
  split at h
  · simp at h
  · simp at h
  · split at h
    · simp at h
    · split at h
      · simp at h
      · simp only [Prod.mk.injEq, Option.some.injEq, true_and] at h
        subst h
        exact ⟨_, rfl⟩

theorem reachable_active_rectangle (b : GpLineGradient) (h : Reachable b) :
    ExactlyOneActive b ∧ ∃ r, b.rectangle = some r := by
  have fresh : ∀ {b : GpLineGradient}, b.blend.count = 1 ∧ b.presetColors.count = -1 →
      ExactlyOneActive b := fun hc =>
    exactlyOneActive_of_blend (by rw [hc.1]; decide) hc.2
  induction h with
  | createLineBrush _ _ _ _ _ _ _ _ _ _ b hb =>
    exact ⟨fresh (GdipCreateLineBrush_counts hb), GdipCreateLineBrush_rectangle hb⟩
  | createLineBrushI point1 point2 _ _ _ _ _ _ _ _ b hb =>
    unfold GdipCreateLineBrushI at hb
    split at hb
    · simp at hb
    · simp at hb
    · exact ⟨fresh (GdipCreateLineBrush_counts hb), GdipCreateLineBrush_rectangle hb⟩
  | createLineBrushFromRect _ _ _ _ _ _ _ _ _ _ b hb =>
    exact ⟨fresh (GdipCreateLineBrushFromRectWithAngle_counts hb),
      GdipCreateLineBrushFromRectWithAngle_rectangle hb⟩
  | createLineBrushFromRectI rect _ _ _ _ _ _ _ _ _ b hb =>
    unfold GdipCreateLineBrushFromRectI at hb
    split at hb
    · simp at hb
    · exact ⟨fresh (GdipCreateLineBrushFromRectWithAngle_counts hb),
        GdipCreateLineBrushFromRectWithAngle_rectangle hb⟩
  | createLineBrushFromRectWithAngle _ _ _ _ _ _ _ _ _ _ _ b hb =>
    exact ⟨fresh (GdipCreateLineBrushFromRectWithAngle_counts hb),
      GdipCreateLineBrushFromRectWithAngle_rectangle hb⟩
  | createLineBrushFromRectWithAngleI rect _ _ _ _ _ _ _ _ _ _ b hb =>
    unfold GdipCreateLineBrushFromRectWithAngleI at hb
    split at hb
    · simp at hb
    · exact ⟨fresh (GdipCreateLineBrushFromRectWithAngle_counts hb),
        GdipCreateLineBrushFromRectWithAngle_rectangle hb⟩
  | setLineBlend b b' blend positions count bf bp _ hstep ih =>
    have hr := GdipSetLineBlend_rectangle b b' blend positions count bf bp hstep
    refine ⟨?_, by rw [hr]; exact ih.2⟩
    rcases GdipSetLineBlend_cases b blend positions count bf bp with
      ⟨he, _⟩ | ⟨he, _⟩ | ⟨c, he, _, _, hc, h1, h2⟩
    · rw [he] at hstep
      cases hstep
      exact ih.1
    · rw [he] at hstep
      cases hstep
      exact ih.1
    · rw [he] at hstep
      cases hstep
      exact exactlyOneActive_of_blend (by rw [h1]; exact hc) h2
  | setLinePresetBlend b b' blend positions count bc bp _ hstep ih =>
    have hr := GdipSetLinePresetBlend_rectangle b b' blend positions count bc bp hstep
    refine ⟨?_, by rw [hr]; exact ih.2⟩
    rcases GdipSetLinePresetBlend_cases b blend positions count bc bp with
      ⟨he, _⟩ | ⟨he, _⟩ | ⟨c, he, _, _, hc, h1, h2⟩
    · rw [he] at hstep
      cases hstep
      exact ih.1
    · rw [he] at hstep
      cases hstep
      exact ih.1
    · rw [he] at hstep
      cases hstep
      exact exactlyOneActive_of_preset (by rw [h1]; exact hc) h2
  | setLineGammaCorrection b b' g _ hstep ih =>
    cases hstep
    exact ⟨exactlyOneActive_congr rfl rfl ih.1, ih.2⟩
  | setLineColors b b' c1 c2 _ hstep ih =>
    cases hstep
    exact ⟨exactlyOneActive_congr rfl rfl ih.1, ih.2⟩
  | setLineTransform b b' matrix _ hstep ih =>
    cases matrix with
    | none =>
      cases hstep
      exact ih
    | some m =>
      cases hstep
      exact ⟨exactlyOneActive_congr rfl rfl ih.1, ih.2⟩
  | setLineWrapMode b b' wrapMode _ hstep ih =>
    unfold GdipSetLineWrapMode at hstep
    simp only [] at hstep
    split_ifs at hstep
    · cases hstep
      exact ih
    · cases hstep
      exact ⟨exactlyOneActive_congr rfl rfl ih.1, ih.2⟩
  | setLineLinearBlend b b' _ _ _ hstep ih =>
    cases hstep
    exact ih
  | setLineSigmaBlend b b' _ _ _ hstep ih =>
    cases hstep
    exact ih
  | multiplyLineTransform b b' f matrix order _ hstep ih =>
    cases matrix with
    | none =>
      cases hstep
      exact ih
    | some m =>
      cases hstep
      exact ⟨exactlyOneActive_congr rfl rfl ih.1, ih.2⟩
  | resetLineTransform b b' f g _ hstep ih =>
    cases hstep
    exact ⟨exactlyOneActive_congr rfl rfl ih.1, ih.2⟩
  | rotateLineTransform b b' f angle order _ hstep ih =>
    cases hstep
    exact ⟨exactlyOneActive_congr rfl rfl ih.1, ih.2⟩
  | scaleLineTransform b b' f sx sy order _ hstep ih =>
    cases hstep
    exact ⟨exactlyOneActive_congr rfl rfl ih.1, ih.2⟩
  | translateLineTransform b b' f dx dy order _ hstep ih =>
    cases hstep
    exact ⟨exactlyOneActive_congr rfl rfl ih.1, ih.2⟩

/-! ## Setup -/

theorem create_tile_linear_ok (ct : cairo_t) (linear : GpLineGradient) (r : GpRectF)
    (p : cairo_pattern_t) (hr : linear.rectangle = some r) :
    create_tile_linear ct linear (some p) = some (Ok,
      ct ++ [cairo_call.cairo_save] ++ [cairo_call.cairo_rectangle r.X r.Y r.Width r.Height]
        ++ [cairo_call.cairo_set_pattern
          (cairo_source.linear linear.points.1.X linear.points.1.Y
            linear.points.2.X linear.points.2.Y
            (if linear.blend.count > 0 then
              add_color_stops_from_blend p linear.blend linear.lineColors
            else
              add_color_stops_from_interpolation_colors p linear.presetColors))]
        ++ [cairo_call.cairo_rotate linear.angle] ++ [cairo_call.cairo_fill]
        ++ [cairo_call.cairo_restore]
        ++ [cairo_call.cairo_set_pattern
          (cairo_source.surface cairo_extend_t.CAIRO_EXTEND_REPEAT linear.matrix)]) := by
  unfold create_tile_linear
  simp only [hr]

/-- C14: `gdip_linear_gradient_setup` returns `InvalidParameter` whenever the
graphics, the brush or the drawing context of the graphics is null.  Otherwise
the wrap mode decides: `WrapModeTileFlipX` and `WrapModeTileFlipXY` return
`NotImplemented`, every value outside the four tile modes (`WrapModeClamp`
among them) returns `InvalidParameter`, and `WrapModeTile` and
`WrapModeTileFlipY` go on to `create_tile_linear`, which returns `Ok` when the
fill engine creates the pattern (and `OutOfMemory` when it does not), for
every brush that has a rectangle and so for every reachable brush. -/
theorem gdip_linear_gradient_setup_status (graphics : Option GpGraphics)
    (brush : Option GpLineGradient) (pattern : Option cairo_pattern_t) (g : GpGraphics)
    (ct : cairo_t) (linear : GpLineGradient) :
    ((graphics = none ∨ brush = none ∨ graphics = some ⟨none⟩) →
      gdip_linear_gradient_setup graphics brush pattern = some (InvalidParameter, graphics)) ∧
    (g.ct = some ct →
      ((linear.wrapMode = WrapModeTileFlipX ∨ linear.wrapMode = WrapModeTileFlipXY) →
        gdip_linear_gradient_setup (some g) (some linear) pattern
          = some (NotImplemented, some g)) ∧
      ((linear.wrapMode ≠ WrapModeTile ∧ linear.wrapMode ≠ WrapModeTileFlipX ∧
          linear.wrapMode ≠ WrapModeTileFlipY ∧ linear.wrapMode ≠ WrapModeTileFlipXY) →
        gdip_linear_gradient_setup (some g) (some linear) pattern
          = some (InvalidParameter, some g)) ∧
      ((linear.wrapMode = WrapModeTile ∨ linear.wrapMode = WrapModeTileFlipY) →
        gdip_linear_gradient_setup (some g) (some linear) pattern
          = (create_tile_linear ct linear pattern).map
              (fun r => (r.1, some { g with ct := some r.2 })) ∧
        (∀ (r : GpRectF) (p : cairo_pattern_t), linear.rectangle = some r →
          pattern = some p →
          ∃ ct', gdip_linear_gradient_setup (some g) (some linear) pattern
            = some (Ok, some ⟨some ct'⟩)) ∧
        (∀ r : GpRectF, linear.rectangle = some r → pattern = none →
          ∃ ct', gdip_linear_gradient_setup (some g) (some linear) pattern
            = some (OutOfMemory, some ⟨some ct'⟩)) ∧
        (∀ p : cairo_pattern_t, Reachable linear → pattern = some p →
          ∃ ct', gdip_linear_gradient_setup (some g) (some linear) pattern
            = some (Ok, some ⟨some ct'⟩)))) := by
  have htile : (linear.wrapMode = WrapModeTile ∨ linear.wrapMode = WrapModeTileFlipY) →
      g.ct = some ct →
      gdip_linear_gradient_setup (some g) (some linear) pattern
        = (create_tile_linear ct linear pattern).map
            (fun r => (r.1, some { g with ct := some r.2 })) := by
    intro hw hct
    unfold gdip_linear_gradient_setup
    rcases hw with hw | hw <;> simp only [hct, hw] <;>
      cases create_tile_linear ct linear pattern <;> rfl
  refine ⟨?_, ?_⟩
  · rintro (h | h | h)
    · subst h
      rfl
    · subst h
      cases graphics <;> rfl
    · subst h
      cases brush <;> rfl
  · intro hct
    refine ⟨?_, ?_, ?_⟩
    · rintro (hw | hw) <;> simp [gdip_linear_gradient_setup, hct, hw, create_tile_flipX_linear]
    · rintro ⟨h1, h2, h3, h4⟩
      unfold gdip_linear_gradient_setup
      simp only [hct]
    · intro hw
      have hok : ∀ (r : GpRectF) (p : cairo_pattern_t), linear.rectangle = some r →
          pattern = some p →
          ∃ ct', gdip_linear_gradient_setup (some g) (some linear) pattern
            = some (Ok, some ⟨some ct'⟩) := by
        intro r p hr hp
        subst hp
        rw [htile hw hct, create_tile_linear_ok ct linear r p hr]
        exact ⟨_, rfl⟩
      refine ⟨htile hw hct, hok, ?_, ?_⟩
      · intro r hr hp
        subst hp
        rw [htile hw hct]
        unfold create_tile_linear
        simp only [hr]
        exact ⟨_, rfl⟩
      · intro p hreach hp
        obtain ⟨_, r, hr⟩ := reachable_active_rectangle linear hreach
        exact hok r p hr hp

/-- Witness of C14: the brush of the line (0,0)-(10,10), whose wrap mode is
`WrapModeTile`, set up on a graphics with a drawing context and with a pattern
that the fill engine creates. -/
theorem gdip_linear_gradient_setup_status_witness :
    sampleGraphics.ct = some [] ∧
    (lineBrush.wrapMode = WrapModeTile ∨ lineBrush.wrapMode = WrapModeTileFlipY) ∧
    lineBrush.rectangle = some ⟨0, 0, 10, 10⟩ ∧
    ∃ ct', gdip_linear_gradient_setup (some sampleGraphics) (some lineBrush) (some [])
      = some (Ok, some ⟨some ct'⟩) :=
  ⟨rfl, Or.inl rfl, rfl,
    ((gdip_linear_gradient_setup_status none none (some []) sampleGraphics [] lineBrush).2
      rfl).2.2 (Or.inl rfl) |>.2.1 ⟨0, 0, 10, 10⟩ [] rfl rfl⟩

/-! ## Cloning -/

theorem lineBrush_reachable : Reachable lineBrush :=
  Reachable.createLineBrush _ _ _ _ _ _ _ _ _ _ lineBrush lineBrush_created

theorem gdip_linear_gradient_clone_brush_blend_count (linear newbrush c : GpLineGradient)
    (factors positions : Option (Nat → ℚ)) (hactive : linear.blend.count ≠ -1)
    (h : gdip_linear_gradient_clone_brush_blend linear newbrush factors positions = some c) :
    c.blend.count = newbrush.blend.count := by
  unfold gdip_linear_gradient_clone_brush_blend at h
  rw [if_pos hactive] at h
  cases factors with
  | none => simp at h
  | some f =>
    cases positions with
    | none => simp at h
    | some q =>
      simp only [Option.some.injEq] at h
      subst h
      rfl

/-- C16, the code at a failing input: the reachable brush of the line
(0,0)-(10,10) has a blend curve of count 1; cloned with every allocation
succeeding and the block for the clone's blend curve arriving zero-filled, the
clone is returned with `Ok` but its blend count is the 0 found in that block,
not the 1 of the source, because the branch that copies an active curve never
assigns `newbrush->blend->count`. -/
theorem clone_leaves_blend_count_unassigned :
    Reachable lineBrush ∧ lineBrush.blend.count = 1 ∧
    (gdip_linear_gradient_clone_brush (some lineBrush) (some none) (some rawBrush)
        (some ⟨zeroColors, zeroCells, 0⟩) (some zeroColors) (some zeroCells)
        (some staleBlendBlock) (some zeroCells) (some zeroCells)).1 = Ok ∧
    ((gdip_linear_gradient_clone_brush (some lineBrush) (some none) (some rawBrush)
        (some ⟨zeroColors, zeroCells, 0⟩) (some zeroColors) (some zeroCells)
        (some staleBlendBlock) (some zeroCells) (some zeroCells)).2.bind id).map
      (fun c => c.blend.count) = some 0 := by
  have h1 : lineBrush.presetColors.count = -1 := rfl
  have h2 : lineBrush.blend.count ≠ -1 := by decide
  refine ⟨lineBrush_reachable, rfl, ?_, ?_⟩
  · simp [gdip_linear_gradient_clone_brush, gdip_linear_gradient_clone_brush_preset,
      gdip_linear_gradient_clone_brush_blend, h1, h2]
  · simp [gdip_linear_gradient_clone_brush, gdip_linear_gradient_clone_brush_preset,
      gdip_linear_gradient_clone_brush_blend, h1, h2, staleBlendBlock]

/-! ## Gamma correction -/

/-- C18: the gamma-correction flag does not enter paint construction: two
brushes that differ in `gammaCorrection` only get from
`gdip_linear_gradient_setup` the same status and the same calls on the drawing
context, hence the same ordered colour stops, and likewise from
`create_tile_linear`; and `GdipSetLineGammaCorrection` changes no field but
the flag. -/
theorem gamma_correction_not_observed (graphics : Option GpGraphics) (b : GpLineGradient)
    (pattern : Option cairo_pattern_t) (ct : cairo_t) (useGammaCorrection : Bool) :
    gdip_linear_gradient_setup graphics
        (some { b with gammaCorrection := useGammaCorrection }) pattern
      = gdip_linear_gradient_setup graphics (some b) pattern ∧
    create_tile_linear ct { b with gammaCorrection := useGammaCorrection } pattern
      = create_tile_linear ct b pattern ∧
    GdipSetLineGammaCorrection (some b) useGammaCorrection
      = (Ok, some { b with gammaCorrection := useGammaCorrection }) := by
  have hc : ∀ ct : cairo_t,
      create_tile_linear ct { b with gammaCorrection := useGammaCorrection } pattern
        = create_tile_linear ct b pattern := fun _ => rfl
  refine ⟨?_, hc ct, rfl⟩
  cases graphics with
  | none => rfl
  | some g =>
    unfold gdip_linear_gradient_setup
    simp only [hc, create_tile_flipX_linear]

/-! ## Bounds -/

theorem channel_le (color k : Nat) : ((channel color k : Nat) : ℚ) ≤ 255 := by
  have h : channel color k < 256 := Nat.mod_lt _ (by decide)
  have h' : channel color k ≤ 255 := by omega
  exact_mod_cast h'

theorem weighted_between (s e f : ℚ) (h0 : 0 ≤ f) (h1 : f ≤ 1) :
    min s e ≤ s * f + e * (1 - f) ∧ s * f + e * (1 - f) ≤ max s e := by
  have hf : 0 ≤ 1 - f := by linarith
  rcases le_total s e with h | h
  · rw [min_eq_left h, max_eq_right h]
    constructor
    · nlinarith [mul_nonneg hf (sub_nonneg.mpr h)]
    · nlinarith [mul_nonneg h0 (sub_nonneg.mpr h)]
  · rw [min_eq_right h, max_eq_left h]
    constructor
    · nlinarith [mul_nonneg h0 (sub_nonneg.mpr h)]
    · nlinarith [mul_nonneg hf (sub_nonneg.mpr h)]

theorem weighted_channel_bounds (c1 c2 k : Nat) (f : ℚ) (h0 : 0 ≤ f) (h1 : f ≤ 1) :
    0 ≤ (channel c1 k : ℚ) * f + (channel c2 k : ℚ) * (1 - f) ∧
    (channel c1 k : ℚ) * f + (channel c2 k : ℚ) * (1 - f) ≤ 255 ∧
    min (channel c1 k : ℚ) (channel c2 k : ℚ)
      ≤ (channel c1 k : ℚ) * f + (channel c2 k : ℚ) * (1 - f) ∧
    (channel c1 k : ℚ) * f + (channel c2 k : ℚ) * (1 - f)
      ≤ max (channel c1 k : ℚ) (channel c2 k : ℚ) := by
  obtain ⟨hlo, hhi⟩ := weighted_between (channel c1 k : ℚ) (channel c2 k : ℚ) f h0 h1
  have hs0 : (0 : ℚ) ≤ (channel c1 k : ℚ) := Nat.cast_nonneg _
  have he0 : (0 : ℚ) ≤ (channel c2 k : ℚ) := Nat.cast_nonneg _
  refine ⟨le_trans (le_min hs0 he0) hlo, le_trans hhi (max_le (channel_le _ _) (channel_le _ _)),
    hlo, hhi⟩

/-! ## Stops of a reachable brush -/

theorem add_color_stops_from_blend_append (pattern : cairo_pattern_t) (blend : Blend)
    (colors : ARGB × ARGB) :
    add_color_stops_from_blend pattern blend colors
      = pattern ++ add_color_stops_from_blend [] blend colors := by
  unfold add_color_stops_from_blend
  simp only [add_color_stops_from_blend_loop_eq, List.nil_append]

theorem add_color_stops_from_blend_length (blend : Blend) (colors : ARGB × ARGB) :
    (add_color_stops_from_blend [] blend colors).length = blend.count.toNat := by
  unfold add_color_stops_from_blend
  simp only [add_color_stops_from_blend_loop_eq, List.nil_append, List.length_map,
    List.length_range']

theorem add_color_stops_from_interpolation_colors_append (pattern : cairo_pattern_t)
    (presetColors : InterpolationColors) :
    add_color_stops_from_interpolation_colors pattern presetColors
      = pattern ++ add_color_stops_from_interpolation_colors [] presetColors := by
  unfold add_color_stops_from_interpolation_colors
  simp only [add_color_stops_from_interpolation_colors_loop_eq, List.nil_append]

theorem add_color_stops_from_interpolation_colors_length (presetColors : InterpolationColors) :
    (add_color_stops_from_interpolation_colors [] presetColors).length
      = presetColors.count.toNat := by
  unfold add_color_stops_from_interpolation_colors
  simp only [add_color_stops_from_interpolation_colors_loop_eq, List.nil_append,
    List.length_map, List.length_range']

theorem create_tile_linear_calls (ct : cairo_t) (linear : GpLineGradient) (r : GpRectF)
    (p : cairo_pattern_t) (hr : linear.rectangle = some r) :
    create_tile_linear ct linear (some p) = some (Ok, ct ++ tile_calls linear r
      (p ++ (if linear.blend.count > 0 then
              add_color_stops_from_blend [] linear.blend linear.lineColors
            else
              add_color_stops_from_interpolation_colors [] linear.presetColors))) := by
  rw [create_tile_linear_ok ct linear r p hr]
  unfold tile_calls
  split_ifs with h
  · rw [add_color_stops_from_blend_append]
    simp only [List.append_assoc, List.singleton_append, List.cons_append, List.nil_append]
  · rw [add_color_stops_from_interpolation_colors_append]
    simp only [List.append_assoc, List.singleton_append, List.cons_append, List.nil_append]

/-- C17: for every brush state reachable from a constructor by calls of the
mutators, `create_tile_linear` adds to the pattern only the stops of the
active structure (those of the blend evaluation when the blend curve is
active, those of the preset evaluation when the preset ramp is), and their
number is the count of the active structure.  In particular, after `GdipSetLineBlend`
with count 0 the blend count is 0 and the preset count -1, no stop is added,
and the outcome is the same whatever the four arrays hold. -/
theorem create_tile_linear_stops_of_active (b : GpLineGradient) (h : Reachable b)
    (ct : cairo_t) (p : cairo_pattern_t) :
    (∃ (r : GpRectF) (stops : List ColorStop),
      b.rectangle = some r ∧
      create_tile_linear ct b (some p) = some (Ok, ct ++ tile_calls b r (p ++ stops)) ∧
      (b.blend.count ≥ 0 →
        stops = add_color_stops_from_blend [] b.blend b.lineColors ∧
        (stops.length : Int) = b.blend.count) ∧
      (b.presetColors.count ≥ 0 →
        stops = add_color_stops_from_interpolation_colors [] b.presetColors ∧
        (stops.length : Int) = b.presetColors.count)) ∧
    (∀ (blend positions blendFactors blendPositions : Nat → ℚ) (b0 : GpLineGradient),
      GdipSetLineBlend (some b) (some blend) (some positions) 0 (some blendFactors)
        (some blendPositions) = (Ok, some b0) →
      b0.blend.count = 0 ∧ b0.presetColors.count = -1 ∧
      ∃ r, b0.rectangle = some r ∧
        ∀ (colors : Nat → ARGB) (rampPositions factors curvePositions : Nat → ℚ),
          create_tile_linear ct
            { b0 with
              presetColors := { b0.presetColors with
                colors := colors, positions := rampPositions },
              blend := { b0.blend with factors := factors, positions := curvePositions } }
            (some p) = some (Ok, ct ++ tile_calls b0 r p)) := by
  obtain ⟨hact, r, hr⟩ := reachable_active_rectangle b h
  refine ⟨⟨r, _, hr, create_tile_linear_calls ct b r p hr, ?_, ?_⟩, ?_⟩
  · intro hb
    have hp : b.presetColors.count < 0 := by
      by_contra hcon
      exact hact.2 ⟨hb, not_lt.mp hcon⟩
    split_ifs with hpos
    · refine ⟨rfl, ?_⟩
      rw [add_color_stops_from_blend_length]
      omega
    · have hzero : b.blend.count = 0 := by omega
      have h1 : add_color_stops_from_interpolation_colors [] b.presetColors = [] := by
        apply List.eq_nil_of_length_eq_zero
        rw [add_color_stops_from_interpolation_colors_length]
        omega
      have h2 : add_color_stops_from_blend [] b.blend b.lineColors = [] := by
        apply List.eq_nil_of_length_eq_zero
        rw [add_color_stops_from_blend_length]
        omega
      rw [h1, h2, hzero]
      exact ⟨rfl, rfl⟩
  · intro hpre
    have hb : ¬ b.blend.count > 0 := by
      intro hcon
      exact hact.2 ⟨le_of_lt hcon, hpre⟩
    rw [if_neg hb]
    refine ⟨rfl, ?_⟩
    rw [add_color_stops_from_interpolation_colors_length]
    omega
  · intro blend positions blendFactors blendPositions b0 hset
    have hr0 : b0.rectangle = some r := by
      rw [GdipSetLineBlend_rectangle b b0 (some blend) (some positions) 0 (some blendFactors)
        (some blendPositions) (by rw [hset])]
      exact hr
    have hcounts : b0.blend.count = 0 ∧ b0.presetColors.count = -1 := by
      rcases GdipSetLineBlend_cases b (some blend) (some positions) 0 (some blendFactors)
        (some blendPositions) with ⟨he, _⟩ | ⟨he, _⟩ | ⟨c, he, _, _, _, h1, h2⟩
      · rw [he] at hset
        cases hset
      · rw [he] at hset
        cases hset
      · rw [he] at hset
        cases hset
        exact ⟨h1, h2⟩
    refine ⟨hcounts.1, hcounts.2, r, hr0, ?_⟩
    intro colors rampPositions factors curvePositions
    rw [create_tile_linear_calls ct
      { b0 with
        presetColors := { b0.presetColors with colors := colors, positions := rampPositions },
        blend := { b0.blend with factors := factors, positions := curvePositions } }
      r p hr0]
    have hnot : ¬ ((0 : Int) > 0) := by decide
    have hnil : add_color_stops_from_interpolation_colors []
        { colors := colors, positions := rampPositions, count := b0.presetColors.count }
        = [] := by
      apply List.eq_nil_of_length_eq_zero
      rw [add_color_stops_from_interpolation_colors_length]
      simp only [hcounts.2]
      rfl
    simp only [hcounts.1, hnot, if_false, hnil, List.append_nil]
    rfl

/-- Witness of C17: the brush given a two-colour preset ramp. -/
theorem create_tile_linear_stops_of_active_witness :
    Reachable rampBrush ∧
    ((∃ (r : GpRectF) (stops : List ColorStop),
      rampBrush.rectangle = some r ∧
      create_tile_linear [] rampBrush (some [])
        = some (Ok, [] ++ tile_calls rampBrush r ([] ++ stops)) ∧
      (rampBrush.blend.count ≥ 0 →
        stops = add_color_stops_from_blend [] rampBrush.blend rampBrush.lineColors ∧
        (stops.length : Int) = rampBrush.blend.count) ∧
      (rampBrush.presetColors.count ≥ 0 →
        stops = add_color_stops_from_interpolation_colors [] rampBrush.presetColors ∧
        (stops.length : Int) = rampBrush.presetColors.count)) ∧
    (∀ (blend positions blendFactors blendPositions : Nat → ℚ) (b0 : GpLineGradient),
      GdipSetLineBlend (some rampBrush) (some blend) (some positions) 0 (some blendFactors)
        (some blendPositions) = (Ok, some b0) →
      b0.blend.count = 0 ∧ b0.presetColors.count = -1 ∧
      ∃ r, b0.rectangle = some r ∧
        ∀ (colors : Nat → ARGB) (rampPositions factors curvePositions : Nat → ℚ),
          create_tile_linear []
            { b0 with
              presetColors := { b0.presetColors with
                colors := colors, positions := rampPositions },
              blend := { b0.blend with factors := factors, positions := curvePositions } }
            (some []) = some (Ok, [] ++ tile_calls b0 r []))) :=
  ⟨rampBrush_reachable, create_tile_linear_stops_of_active rampBrush rampBrush_reachable [] []⟩

/-! ## Lemmas on rounding -/

theorem roundHalfEven_eq (m : ℚ) (n : ℤ) (h : |m - n| < 1 / 2) : roundHalfEven m = n := by
  rw [abs_lt] at h
  obtain ⟨h1, h2⟩ := h
  unfold roundHalfEven
  by_cases hfl : ⌊m⌋ = n
  · rw [hfl]
    have : m - (n : ℚ) < 1 / 2 := h2
    rw [if_pos this]
  · have hfl' : ⌊m⌋ = n - 1 := by
      rw [Int.floor_eq_iff]
      constructor
      · push_cast; linarith
      · push_cast
        by_contra hcon
        push_neg at hcon
        apply hfl
        rw [Int.floor_eq_iff]
        constructor
        · linarith
        · linarith
    rw [hfl']
    push_cast
    have h3 : ¬ (m - ((n : ℚ) - 1) < 1 / 2) := by linarith
    have h4 : 1 / 2 < m - ((n : ℚ) - 1) := by linarith
    rw [if_neg h3, if_pos h4]
    ring

theorem roundHalfEven_intCast (n : ℤ) : roundHalfEven (n : ℚ) = n :=
  roundHalfEven_eq _ n (by norm_num)

theorem roundHalfEven_abs_sub_le (m : ℚ) : |(roundHalfEven m : ℚ) - m| ≤ 1 / 2 := by
  have h1 : (⌊m⌋ : ℚ) ≤ m := Int.floor_le m
  have h2 : m < (⌊m⌋ : ℚ) + 1 := Int.lt_floor_add_one m
  unfold roundHalfEven
  rw [abs_le]
  split_ifs with ha hb hc
  · constructor <;> linarith
  · push_cast; constructor <;> linarith
  · constructor <;> linarith
  · push_cast; constructor <;> linarith

theorem roundHalfEven_nonneg (m : ℚ) (h : 0 ≤ m) : 0 ≤ roundHalfEven m := by
  have h1 : 0 ≤ ⌊m⌋ := Int.floor_nonneg.mpr h
  unfold roundHalfEven
  split_ifs <;> omega

theorem Format.ulp_pos (f : Format) (q : ℚ) : 0 < f.ulp q := by
  unfold Format.ulp
  positivity

theorem Format.roundQ_abs_sub_le (f : Format) (q : ℚ) : |f.roundQ q - q| ≤ f.ulp q / 2 := by
  have hu := f.ulp_pos q
  have h := roundHalfEven_abs_sub_le (q / f.ulp q)
  unfold Format.roundQ
  have e : (roundHalfEven (q / f.ulp q) : ℚ) * f.ulp q - q
      = ((roundHalfEven (q / f.ulp q) : ℚ) - q / f.ulp q) * f.ulp q := by
    field_simp
  rw [e, abs_mul, abs_of_pos hu]
  calc |(roundHalfEven (q / f.ulp q) : ℚ) - q / f.ulp q| * f.ulp q
      ≤ 1 / 2 * f.ulp q := mul_le_mul_of_nonneg_right h hu.le
    _ = f.ulp q / 2 := by ring

theorem Format.roundQ_nonneg (f : Format) (q : ℚ) (h : 0 ≤ q) : 0 ≤ f.roundQ q := by
  have hu := f.ulp_pos q
  unfold Format.roundQ
  have : 0 ≤ roundHalfEven (q / f.ulp q) := roundHalfEven_nonneg _ (div_nonneg h hu.le)
  have : (0 : ℚ) ≤ (roundHalfEven (q / f.ulp q) : ℚ) := by exact_mod_cast this
  positivity

theorem log_eq (q : ℚ) (e : ℤ) (hq : 0 < q) (h1 : (2 : ℚ) ^ e ≤ q) (h2 : q < (2 : ℚ) ^ (e + 1)) :
    Int.log 2 q = e := by
  apply le_antisymm
  · have := (Int.lt_zpow_iff_log_lt (b := 2) (by norm_num) hq (x := e + 1)).mp (by exact_mod_cast h2)
    omega
  · exact (Int.zpow_le_iff_le_log (b := 2) (by norm_num) hq).mp (by exact_mod_cast h1)

theorem Format.roundQ_eq (f : Format) (q : ℚ) (e n : ℤ) (hq : 0 < q) (h1 : (2 : ℚ) ^ e ≤ q)
    (h2 : q < (2 : ℚ) ^ (e + 1)) (hmin : f.emin ≤ e)
    (hn : |q / (2 : ℚ) ^ (e - ((f.precision : Int) - 1)) - n| < 1 / 2) :
    f.roundQ q = n * (2 : ℚ) ^ (e - ((f.precision : Int) - 1)) := by
  have hlog : Int.log 2 |q| = e := by
    rw [abs_of_pos hq]
    exact log_eq q e hq h1 h2
  unfold Format.roundQ Format.ulp
  rw [hlog, max_eq_left hmin, roundHalfEven_eq _ n hn]

theorem log_abs_lt (q : ℚ) (k : ℤ) (hk : 1 ≤ k) (h : |q| < (2 : ℚ) ^ k) : Int.log 2 |q| < k := by
  by_cases hq : q = 0
  · subst hq
    rw [abs_zero, Int.log_of_right_le_zero 2 (le_refl (0 : ℚ))]
    omega
  · have hpos : 0 < |q| := abs_pos.mpr hq
    exact (Int.lt_zpow_iff_log_lt (b := 2) (by norm_num) hpos).mp (by exact_mod_cast h)

theorem Format.ulp_le (f : Format) (q : ℚ) (k : ℤ) (hk : 1 ≤ k) (hmin : f.emin < k)
    (h : |q| < (2 : ℚ) ^ k) : f.ulp q ≤ (2 : ℚ) ^ (k - (f.precision : Int)) := by
  have hl := log_abs_lt q k hk h
  unfold Format.ulp
  apply zpow_le_zpow_right₀ (by norm_num)
  have : max (Int.log 2 |q|) f.emin ≤ k - 1 := max_le (by omega) (by omega)
  omega

theorem Format.roundQ_exact (f : Format) (m t : ℤ) (hm : |(m : ℚ)| < (2 : ℚ) ^ f.precision)
    (ht : f.emin - ((f.precision : Int) - 1) ≤ t) :
    f.roundQ (m * (2 : ℚ) ^ t) = m * (2 : ℚ) ^ t := by
  by_cases hm0 : m = 0
  · subst hm0
    unfold Format.roundQ
    simp [roundHalfEven]
  have h2 : (0 : ℚ) < 2 := by norm_num
  have hq : (m : ℚ) * (2 : ℚ) ^ t ≠ 0 := by
    apply mul_ne_zero
    · exact_mod_cast hm0
    · positivity
  have hpos : 0 < |(m : ℚ) * (2 : ℚ) ^ t| := abs_pos.mpr hq
  have hlt : |(m : ℚ) * (2 : ℚ) ^ t| < (2 : ℚ) ^ ((f.precision : Int) + t) := by
    rw [abs_mul, abs_of_pos (zpow_pos h2 t), zpow_add₀ (by norm_num)]
    apply mul_lt_mul_of_pos_right _ (zpow_pos h2 t)
    exact_mod_cast hm
  have hlog : Int.log 2 |(m : ℚ) * (2 : ℚ) ^ t| < (f.precision : Int) + t :=
    (Int.lt_zpow_iff_log_lt (b := 2) (by norm_num) hpos).mp (by exact_mod_cast hlt)
  have hu : max (Int.log 2 |(m : ℚ) * (2 : ℚ) ^ t|) f.emin - ((f.precision : Int) - 1) ≤ t := by
    have : max (Int.log 2 |(m : ℚ) * (2 : ℚ) ^ t|) f.emin ≤ t + ((f.precision : Int) - 1) :=
      max_le (by omega) (by omega)
    omega
  obtain ⟨d, hd⟩ : ∃ d : ℕ, t = max (Int.log 2 |(m : ℚ) * (2 : ℚ) ^ t|) f.emin
      - ((f.precision : Int) - 1) + d := ⟨(t - (max (Int.log 2 |(m : ℚ) * (2 : ℚ) ^ t|) f.emin
      - ((f.precision : Int) - 1))).toNat, by omega⟩
  unfold Format.roundQ Format.ulp
  generalize max (Int.log 2 |(m : ℚ) * (2 : ℚ) ^ t|) f.emin - ((f.precision : Int) - 1) = u at hd
  have hdiv : (m : ℚ) * (2 : ℚ) ^ t / (2 : ℚ) ^ u = ((m * 2 ^ d : ℤ) : ℚ) := by
    rw [hd, zpow_add₀ (by norm_num), zpow_natCast]
    push_cast
    field_simp
    ring
  rw [hdiv, roundHalfEven_intCast]
  rw [hd, zpow_add₀ (by norm_num), zpow_natCast]
  push_cast
  ring

theorem Format.roundQ_intCast (f : Format) (m : ℤ) (hm : |(m : ℚ)| < (2 : ℚ) ^ f.precision)
    (ht : f.emin - ((f.precision : Int) - 1) ≤ 0) : f.roundQ (m : ℚ) = m := by
  have := f.roundQ_exact m 0 hm ht
  simpa using this

theorem Format.round_eq_num (f : Format) (q : ℚ) (h : |f.roundQ q| < (2 : ℚ) ^ (f.emax + 1)) :
    f.round q = IEEE.num (f.roundQ q) := by
  unfold Format.round
  rw [if_pos h]

theorem Format.round_exact (f : Format) (q c : ℚ) (m t : ℤ) (hqc : q = c)
    (hc : c = m * (2 : ℚ) ^ t) (hm : |(m : ℚ)| < (2 : ℚ) ^ f.precision)
    (ht : f.emin - ((f.precision : Int) - 1) ≤ t) (hmax : |c| < (2 : ℚ) ^ (f.emax + 1)) :
    f.round q = IEEE.num c := by
  have hr : f.roundQ q = c := by
    rw [hqc, hc]
    exact f.roundQ_exact m t hm ht
  rw [f.round_eq_num q (by rw [hr]; exact hmax), hr]

theorem binary64_round_spec (q : ℚ) (k : ℤ) (hk : 1 ≤ k) (hk9 : k ≤ 9)
    (h : |q| < (2 : ℚ) ^ k) :
    binary64.round q = IEEE.num (binary64.roundQ q) ∧
      |binary64.roundQ q - q| ≤ (2 : ℚ) ^ (k - 54) := by
  have hu : binary64.ulp q ≤ (2 : ℚ) ^ (k - 53) :=
    binary64.ulp_le q k hk (by show (-1022 : ℤ) < k; omega) h
  have he : |binary64.roundQ q - q| ≤ (2 : ℚ) ^ (k - 54) := by
    have h1 := binary64.roundQ_abs_sub_le q
    have h2 : (2 : ℚ) ^ (k - 53) / 2 = (2 : ℚ) ^ (k - 54) := by
      rw [show k - 53 = (k - 54) + 1 by ring, zpow_add₀ (by norm_num)]
      norm_num
    linarith
  refine ⟨?_, he⟩
  apply Format.round_eq_num
  have h3 : |binary64.roundQ q| ≤ |binary64.roundQ q - q| + |q| := by
    have := abs_add (binary64.roundQ q - q) q
    simpa using this
  have h4 : (2 : ℚ) ^ (k - 54) ≤ (2 : ℚ) ^ k := zpow_le_zpow_right₀ (by norm_num) (by omega)
  have h5 : (2 : ℚ) ^ k + (2 : ℚ) ^ k = (2 : ℚ) ^ (k + 1) := by
    rw [zpow_add₀ (by norm_num)]
    ring
  have h6 : (2 : ℚ) ^ (k + 1) ≤ (2 : ℚ) ^ (binary64.emax + 1) :=
    zpow_le_zpow_right₀ (by norm_num) (by show k + 1 ≤ (1023 : ℤ) + 1; omega)
  linarith

theorem blend_channel_ieee_spec (s e : Nat) (hs : s ≤ 255) (he : e ≤ 255) (f : ℚ)
    (h0 : 0 ≤ f) (h1 : f ≤ 1) :
    ∃ v : ℚ, blend_channel_ieee s e (IEEE.num f) = IEEE.num v ∧ 0 ≤ v ∧
      |v - ((s : ℚ) * f + (e : ℚ) * (1 - f))| ≤ 1 / 2 ^ 43 := by
  have hs' : (s : ℚ) ≤ 255 := by exact_mod_cast hs
  have he' : (e : ℚ) ≤ 255 := by exact_mod_cast he
  have hs0 : (0 : ℚ) ≤ (s : ℚ) := Nat.cast_nonneg _
  have he0 : (0 : ℚ) ≤ (e : ℚ) := Nat.cast_nonneg _
  -- the product s * f
  have ha0 : 0 ≤ (s : ℚ) * f := mul_nonneg hs0 h0
  have ha1 : (s : ℚ) * f ≤ 255 := by nlinarith
  obtain ⟨har, hae⟩ := binary64_round_spec ((s : ℚ) * f) 8 (by norm_num) (by norm_num)
    (by rw [abs_of_nonneg ha0]; norm_num; linarith)
  have han := binary64.roundQ_nonneg _ ha0
  -- the difference 1 - f
  have hg0 : 0 ≤ 1 - f := by linarith
  obtain ⟨hgr, hge⟩ := binary64_round_spec (1 - f) 1 (by norm_num) (by norm_num)
    (by rw [abs_of_nonneg hg0]; norm_num; linarith)
  have hgn := binary64.roundQ_nonneg _ hg0
  rw [abs_le] at hae hge
  norm_num at hae hge
  -- the product e * (1 - f), rounded
  have hb0 : 0 ≤ (e : ℚ) * binary64.roundQ (1 - f) := mul_nonneg he0 hgn
  have hb1 : (e : ℚ) * binary64.roundQ (1 - f) ≤ 255 * (1 + 1 / 2 ^ 53) := by
    have : binary64.roundQ (1 - f) ≤ 1 + 1 / 2 ^ 53 := by linarith [hge.2]
    calc (e : ℚ) * binary64.roundQ (1 - f) ≤ 255 * binary64.roundQ (1 - f) :=
          mul_le_mul_of_nonneg_right he' hgn
      _ ≤ 255 * (1 + 1 / 2 ^ 53) := by linarith
  obtain ⟨hbr, hbe⟩ := binary64_round_spec ((e : ℚ) * binary64.roundQ (1 - f)) 8
    (by norm_num) (by norm_num) (by rw [abs_of_nonneg hb0]; norm_num at hb1 ⊢; linarith)
  have hbn := binary64.roundQ_nonneg _ hb0
  rw [abs_le] at hbe
  norm_num at hbe
  -- the sum
  have hc0 : 0 ≤ binary64.roundQ ((s : ℚ) * f)
      + binary64.roundQ ((e : ℚ) * binary64.roundQ (1 - f)) := add_nonneg han hbn
  have hd1 : (e : ℚ) * binary64.roundQ (1 - f) - (e : ℚ) * (1 - f) ≤ 255 / 2 ^ 53 := by
    have : (e : ℚ) * (binary64.roundQ (1 - f) - (1 - f)) ≤ 255 * (1 / 2 ^ 53) := by
      have h7 : binary64.roundQ (1 - f) - (1 - f) ≤ 1 / 2 ^ 53 := by linarith [hge.2]
      by_cases hneg : binary64.roundQ (1 - f) - (1 - f) ≤ 0
      · have : (e : ℚ) * (binary64.roundQ (1 - f) - (1 - f)) ≤ 0 :=
          mul_nonpos_of_nonneg_of_nonpos he0 hneg
        linarith [show (0 : ℚ) ≤ 255 * (1 / 2 ^ 53) by norm_num]
      · push_neg at hneg
        calc (e : ℚ) * (binary64.roundQ (1 - f) - (1 - f))
            ≤ 255 * (binary64.roundQ (1 - f) - (1 - f)) :=
              mul_le_mul_of_nonneg_right he' hneg.le
          _ ≤ 255 * (1 / 2 ^ 53) := by linarith
    linarith
  have hd2 : -(255 / 2 ^ 53 : ℚ) ≤ (e : ℚ) * binary64.roundQ (1 - f) - (e : ℚ) * (1 - f) := by
    have : -(255 * (1 / 2 ^ 53) : ℚ) ≤ (e : ℚ) * (binary64.roundQ (1 - f) - (1 - f)) := by
      have h7 : -(1 / 2 ^ 53 : ℚ) ≤ binary64.roundQ (1 - f) - (1 - f) := by linarith [hge.1]
      by_cases hpos : 0 ≤ binary64.roundQ (1 - f) - (1 - f)
      · have : 0 ≤ (e : ℚ) * (binary64.roundQ (1 - f) - (1 - f)) := mul_nonneg he0 hpos
        linarith [show (0 : ℚ) ≤ 255 * (1 / 2 ^ 53) by norm_num]
      · push_neg at hpos
        have : (255 : ℚ) * (binary64.roundQ (1 - f) - (1 - f))
            ≤ (e : ℚ) * (binary64.roundQ (1 - f) - (1 - f)) :=
          mul_le_mul_of_nonpos_right he' hpos.le
        linarith
    linarith
  have hmix0 : 0 ≤ (e : ℚ) * (1 - f) := mul_nonneg he0 hg0
  have hmix : (s : ℚ) * f + (e : ℚ) * (1 - f) ≤ 255 := by nlinarith
  obtain ⟨hcr, hce⟩ := binary64_round_spec (binary64.roundQ ((s : ℚ) * f)
      + binary64.roundQ ((e : ℚ) * binary64.roundQ (1 - f))) 9 (by norm_num) (by norm_num)
    (by rw [abs_of_nonneg hc0]; norm_num at hd1 ⊢; linarith [hae.2, hbe.2])
  have hcn := binary64.roundQ_nonneg _ hc0
  rw [abs_le] at hce
  norm_num at hce
  refine ⟨binary64.roundQ (binary64.roundQ ((s : ℚ) * f)
      + binary64.roundQ ((e : ℚ) * binary64.roundQ (1 - f))), ?_, hcn, ?_⟩
  · show IEEE.add binary64 (binary64.round ((s : ℚ) * f))
        (IEEE.mul binary64 (IEEE.num e) (binary64.round (1 - f))) = _
    rw [har, hgr]
    show IEEE.add binary64 _ (binary64.round ((e : ℚ) * binary64.roundQ (1 - f))) = _
    rw [hbr]
    exact hcr
  · rw [abs_le]
    norm_num at hd1 hd2 ⊢
    constructor <;> linarith [hae.1, hae.2, hbe.1, hbe.2, hce.1, hce.2]

theorem blend_channel_ieee_one (s e : Nat) (hs : s ≤ 255) :
    blend_channel_ieee s e (IEEE.num 1) = IEEE.num s := by
  have hs' : (s : ℚ) ≤ 255 := by exact_mod_cast hs
  have hs0 : (0 : ℚ) ≤ (s : ℚ) := Nat.cast_nonneg _
  have hS : binary64.round ((s : ℚ) * 1) = IEEE.num s :=
    binary64.round_exact _ _ s 0 (by ring) (by simp)
      (by push_cast; rw [abs_of_nonneg hs0]; norm_num [binary64]; linarith) (by decide)
      (by rw [abs_of_nonneg hs0]; norm_num [binary64]; linarith)
  have h0 : binary64.round (1 - 1) = IEEE.num 0 :=
    binary64.round_exact _ _ 0 0 (by norm_num) (by simp) (by norm_num [binary64]) (by decide)
      (by norm_num [binary64])
  have h00 : binary64.round ((e : ℚ) * 0) = IEEE.num 0 :=
    binary64.round_exact _ _ 0 0 (by norm_num) (by simp) (by norm_num [binary64]) (by decide)
      (by norm_num [binary64])
  have hS0 : binary64.round ((s : ℚ) + 0) = IEEE.num s :=
    binary64.round_exact _ _ s 0 (by ring) (by simp)
      (by push_cast; rw [abs_of_nonneg hs0]; norm_num [binary64]; linarith) (by decide)
      (by rw [abs_of_nonneg hs0]; norm_num [binary64]; linarith)
  show IEEE.add binary64 (binary64.round ((s : ℚ) * 1))
      (IEEE.mul binary64 (IEEE.num e) (binary64.round (1 - 1))) = _
  rw [hS, h0]
  show IEEE.add binary64 _ (binary64.round ((e : ℚ) * 0)) = _
  rw [h00]
  exact hS0

theorem blend_channel_ieee_zero (s e : Nat) (he : e ≤ 255) :
    blend_channel_ieee s e (IEEE.num 0) = IEEE.num e := by
  have he' : (e : ℚ) ≤ 255 := by exact_mod_cast he
  have he0 : (0 : ℚ) ≤ (e : ℚ) := Nat.cast_nonneg _
  have h0 : binary64.round ((s : ℚ) * 0) = IEEE.num 0 :=
    binary64.round_exact _ _ 0 0 (by norm_num) (by simp) (by norm_num [binary64]) (by decide)
      (by norm_num [binary64])
  have h1 : binary64.round (1 - 0) = IEEE.num 1 :=
    binary64.round_exact _ _ 1 0 (by norm_num) (by simp) (by norm_num [binary64]) (by decide)
      (by norm_num [binary64])
  have hE : binary64.round ((e : ℚ) * 1) = IEEE.num e :=
    binary64.round_exact _ _ e 0 (by ring) (by simp)
      (by push_cast; rw [abs_of_nonneg he0]; norm_num [binary64]; linarith) (by decide)
      (by rw [abs_of_nonneg he0]; norm_num [binary64]; linarith)
  have hE0 : binary64.round (0 + (e : ℚ)) = IEEE.num e :=
    binary64.round_exact _ _ e 0 (by ring) (by simp)
      (by push_cast; rw [abs_of_nonneg he0]; norm_num [binary64]; linarith) (by decide)
      (by rw [abs_of_nonneg he0]; norm_num [binary64]; linarith)
  show IEEE.add binary64 (binary64.round ((s : ℚ) * 0))
      (IEEE.mul binary64 (IEEE.num e) (binary64.round (1 - 0))) = _
  rw [h0, h1]
  show IEEE.add binary64 _ (binary64.round ((e : ℚ) * 1)) = _
  rw [hE]
  exact hE0

theorem Format.round_eq (f : Format) (q c : ℚ) (e n : ℤ) (hq : 0 < q) (h1 : (2 : ℚ) ^ e ≤ q)
    (h2 : q < (2 : ℚ) ^ (e + 1)) (hmin : f.emin ≤ e)
    (hn : |q / (2 : ℚ) ^ (e - ((f.precision : Int) - 1)) - n| < 1 / 2)
    (hc : n * (2 : ℚ) ^ (e - ((f.precision : Int) - 1)) = c)
    (hmax : |c| < (2 : ℚ) ^ (f.emax + 1)) : f.round q = IEEE.num c := by
  have hr : f.roundQ q = c := by
    rw [f.roundQ_eq q e n hq h1 h2 hmin hn, hc]
  rw [f.round_eq_num q (by rw [hr]; exact hmax), hr]

theorem channel_le_nat (color k : Nat) : channel color k ≤ 255 := by
  have h : channel color k < 256 := Nat.mod_lt _ (by decide)
  omega

theorem blend_channel_ieee_bounds (c1 c2 k : Nat) (f : ℚ) (h0 : 0 ≤ f) (h1 : f ≤ 1) :
    ∃ v : ℚ, blend_channel_ieee (channel c1 k) (channel c2 k) (IEEE.num f) = IEEE.num v ∧
      (0 ≤ v ∧ v ≤ 255 + 1 / 2 ^ 43 ∧
        min (channel c1 k : ℚ) (channel c2 k : ℚ) - 1 / 2 ^ 43 ≤ v ∧
        v ≤ max (channel c1 k : ℚ) (channel c2 k : ℚ) + 1 / 2 ^ 43) ∧
      (f = 1 → v = channel c1 k) ∧ (f = 0 → v = channel c2 k) := by
  obtain ⟨v, hv, hv0, hve⟩ := blend_channel_ieee_spec (channel c1 k) (channel c2 k)
    (channel_le_nat c1 k) (channel_le_nat c2 k) f h0 h1
  obtain ⟨-, hb255, hlo, hhi⟩ := weighted_channel_bounds c1 c2 k f h0 h1
  rw [abs_le] at hve
  refine ⟨v, hv, ⟨hv0, by linarith [hve.2], by linarith [hve.1], by linarith [hve.2]⟩, ?_, ?_⟩
  · intro hf
    subst hf
    rw [blend_channel_ieee_one _ _ (channel_le_nat c1 k)] at hv
    exact (IEEE.num.inj hv).symm
  · intro hf
    subst hf
    rw [blend_channel_ieee_zero _ _ (channel_le_nat c2 k)] at hv
    exact (IEEE.num.inj hv).symm

theorem add_color_stops_from_blend_ieee_loop_eq (blend : BlendIEEE)
    (sr sg sb sa er eg eb ea : Nat) (todo : Nat) :
    ∀ (index : Nat) (pattern : List ColorStopIEEE),
      add_color_stops_from_blend_ieee_loop blend sr sg sb sa er eg eb ea todo index pattern =
        pattern ++ (List.range' index todo).map (fun i =>
          { offset := blend.positions i,
            red := blend_channel_ieee sr er (blend.factors i),
            green := blend_channel_ieee sg eg (blend.factors i),
            blue := blend_channel_ieee sb eb (blend.factors i),
            alpha := blend_channel_ieee sa ea (blend.factors i) }) := by
  induction todo with
  | zero =>
    intro index pattern
    simp [add_color_stops_from_blend_ieee_loop]
  | succ n ih =>
    intro index pattern
    simp only [add_color_stops_from_blend_ieee_loop, ih,
      List.range'_succ, List.map_cons, List.append_assoc, List.singleton_append]

theorem add_color_stops_from_blend_ieee_get (pattern : List ColorStopIEEE) (blend : BlendIEEE)
    (colors : ARGB × ARGB) (i : Nat) (hi : (i : Int) < blend.count) :
    (add_color_stops_from_blend_ieee pattern blend colors)[pattern.length + i]? =
      some { offset := blend.positions i,
             red := blend_channel_ieee (channel colors.1 16) (channel colors.2 16)
               (blend.factors i),
             green := blend_channel_ieee (channel colors.1 8) (channel colors.2 8)
               (blend.factors i),
             blue := blend_channel_ieee (channel colors.1 0) (channel colors.2 0)
               (blend.factors i),
             alpha := blend_channel_ieee (channel colors.1 24) (channel colors.2 24)
               (blend.factors i) } := by
  have hlt : i < blend.count.toNat := by omega
  unfold add_color_stops_from_blend_ieee
  simp only [shift_mask_eq_channel]
  simp only [add_color_stops_from_blend_ieee_loop_eq, mask_eq_channel]
  rw [List.getElem?_append_right (Nat.le_add_right _ _)]
  simp [hlt, List.getElem?_range']

theorem ieee_equal_comm (a b : IEEE) : IEEE.equal a b = IEEE.equal b a := by
  cases a <;> cases b <;> simp [IEEE.equal, eq_comm]

theorem ieee_eq_of_equal (a b : IEEE) (h : IEEE.equal a b = true) : a = b := by
  cases a <;> cases b <;> simp_all [IEEE.equal]

theorem ieee_absdiff_comm (f : Format) (a b : IEEE) (ha : a ≠ IEEE.nan) (hb : b ≠ IEEE.nan) :
    (if IEEE.gt a b then IEEE.sub f a b else IEEE.sub f b a)
      = (if IEEE.gt b a then IEEE.sub f b a else IEEE.sub f a b) := by
  cases a with
  | nan => exact absurd rfl ha
  | inf s =>
    cases b with
    | nan => exact absurd rfl hb
    | inf t => cases s <;> cases t <;> simp [IEEE.gt, IEEE.lt, IEEE.sub]
    | num q => cases s <;> simp [IEEE.gt, IEEE.lt, IEEE.sub]
  | num p =>
    cases b with
    | nan => exact absurd rfl hb
    | inf t => cases t <;> simp [IEEE.gt, IEEE.lt, IEEE.sub]
    | num q =>
      simp only [IEEE.gt, IEEE.lt, IEEE.sub, decide_eq_true_eq]
      rcases lt_trichotomy p q with h | h | h
      · rw [if_neg (not_lt.mpr h.le), if_pos h]
      · subst h
        simp
      · rw [if_pos h, if_neg (not_lt.mpr h.le)]

theorem ieee_min_comm (a b : IEEE) (ha : a ≠ IEEE.nan) (hb : b ≠ IEEE.nan) :
    (if IEEE.lt a b then a else b) = (if IEEE.lt b a then b else a) := by
  cases a with
  | nan => exact absurd rfl ha
  | inf s =>
    cases b with
    | nan => exact absurd rfl hb
    | inf t => cases s <;> cases t <;> simp [IEEE.lt]
    | num q => cases s <;> simp [IEEE.lt]
  | num p =>
    cases b with
    | nan => exact absurd rfl hb
    | inf t => cases t <;> simp [IEEE.lt]
    | num q =>
      simp only [IEEE.lt, decide_eq_true_eq]
      rcases lt_trichotomy p q with h | h | h
      · rw [if_pos h, if_neg (not_lt.mpr h.le)]
      · subst h
        simp
      · rw [if_neg (not_lt.mpr h.le), if_pos h]

/-- C19, counterexample.  With both endpoint colours opaque (alpha 255) and
the factor 481065 / 2^58, a `float` between 0 and 1, the alpha value
`add_color_stops_from_blend` hands to the fill engine is 255 + 2^-45: above
255 and not between the two alpha channels, which are both 255. -/
theorem blend_stop_alpha_exceeds_255 :
    binary32.round (481065 / 2 ^ 58) = IEEE.num (481065 / 2 ^ 58) ∧
    tinyFactorBlend.factors 0 = IEEE.num (481065 / 2 ^ 58) ∧
    (0 : ℚ) ≤ 481065 / 2 ^ 58 ∧ (481065 / 2 ^ 58 : ℚ) ≤ 1 ∧
    channel 0xFF000000 24 = 255 ∧ channel 0xFF0000FF 24 = 255 ∧
    ((add_color_stops_from_blend_ieee [] tinyFactorBlend (0xFF000000, 0xFF0000FF))[0]?).map
      (fun s => s.alpha) = some (IEEE.num (255 + 1 / 2 ^ 45)) ∧
    (255 : ℚ) < 255 + 1 / 2 ^ 45 := by
  have hfloat : binary32.round (481065 / 2 ^ 58) = IEEE.num (481065 / 2 ^ 58) :=
    binary32.round_exact _ _ 481065 (-58) rfl (by norm_num) (by norm_num [binary32])
      (by decide) (by norm_num [binary32, abs_of_pos])
  have hc1 : channel 0xFF000000 24 = 255 := by decide
  have hc2 : channel 0xFF0000FF 24 = 255 := by decide
  have ha : binary64.round ((255 : ℚ) * (481065 / 2 ^ 58)) = IEEE.num (122671575 / 2 ^ 58) :=
    binary64.round_exact _ _ 122671575 (-58) (by norm_num) (by norm_num)
      (by norm_num [binary64]) (by decide) (by norm_num [binary64, abs_of_pos])
  have hg : binary64.round ((1 : ℚ) - 481065 / 2 ^ 58) = IEEE.num (1 - 15033 / 2 ^ 53) :=
    binary64.round_eq _ _ (-1) (2 ^ 53 - 15033) (by norm_num) (by norm_num) (by norm_num)
      (by decide) (by norm_num [binary64, abs_lt]) (by norm_num [binary64])
      (by norm_num [binary64, abs_of_pos])
  have hb : binary64.round ((255 : ℚ) * (1 - 15033 / 2 ^ 53))
      = IEEE.num (255 - 14974 / 2 ^ 45) :=
    binary64.round_eq _ _ 7 (255 * 2 ^ 45 - 14974) (by norm_num) (by norm_num) (by norm_num)
      (by decide) (by norm_num [binary64, abs_lt]) (by norm_num [binary64])
      (by norm_num [binary64, abs_of_pos])
  have hr : binary64.round ((122671575 / 2 ^ 58 : ℚ) + (255 - 14974 / 2 ^ 45))
      = IEEE.num (255 + 1 / 2 ^ 45) :=
    binary64.round_eq _ _ 7 (255 * 2 ^ 45 + 1) (by norm_num) (by norm_num) (by norm_num)
      (by decide) (by norm_num [binary64, abs_lt]) (by norm_num [binary64])
      (by norm_num [binary64, abs_of_pos])
  have hv : blend_channel_ieee 255 255 (IEEE.num (481065 / 2 ^ 58))
      = IEEE.num (255 + 1 / 2 ^ 45) := by
    show IEEE.add binary64 (binary64.round (((255 : Nat) : ℚ) * (481065 / 2 ^ 58)))
        (IEEE.mul binary64 (IEEE.num ((255 : Nat) : ℚ))
          (binary64.round ((1 : ℚ) - 481065 / 2 ^ 58))) = _
    rw [Nat.cast_ofNat, ha, hg]
    show IEEE.add binary64 _ (binary64.round ((255 : ℚ) * (1 - 15033 / 2 ^ 53))) = _
    rw [hb]
    exact hr
  refine ⟨hfloat, rfl, by norm_num, by norm_num, hc1, hc2, ?_, by norm_num⟩
  have hget := add_color_stops_from_blend_ieee_get [] tinyFactorBlend (0xFF000000, 0xFF0000FF)
    0 (by decide)
  simp only [List.length_nil, Nat.add_zero] at hget
  rw [hget]
  simp only [Option.map_some']
  rw [hc1, hc2]
  exact congrArg some hv

/-- C19, amended.  For every pair of endpoint colours and every control point
`i < count` whose factor is a number in [0,1], the stop
`add_color_stops_from_blend` emits for it has four finite channel values, each
in [0, 255 + 2^-43] and within 2^-43 of the interval between the corresponding
start and end channel; a factor of 1 gives exactly the start channels and a
factor of 0 exactly the end channels. -/
theorem blend_stop_channels_near (pattern : List ColorStopIEEE) (blend : BlendIEEE)
    (colors : ARGB × ARGB) (i : Nat) (f : ℚ) (hi : (i : Int) < blend.count)
    (hf : blend.factors i = IEEE.num f) (h0 : 0 ≤ f) (h1 : f ≤ 1) :
    ∃ a r g b : ℚ,
      (add_color_stops_from_blend_ieee pattern blend colors)[pattern.length + i]? =
        some { offset := blend.positions i, red := IEEE.num r, green := IEEE.num g,
               blue := IEEE.num b, alpha := IEEE.num a } ∧
      (0 ≤ a ∧ a ≤ 255 + 1 / 2 ^ 43 ∧
        min (channel colors.1 24 : ℚ) (channel colors.2 24 : ℚ) - 1 / 2 ^ 43 ≤ a ∧
        a ≤ max (channel colors.1 24 : ℚ) (channel colors.2 24 : ℚ) + 1 / 2 ^ 43) ∧
      (0 ≤ r ∧ r ≤ 255 + 1 / 2 ^ 43 ∧
        min (channel colors.1 16 : ℚ) (channel colors.2 16 : ℚ) - 1 / 2 ^ 43 ≤ r ∧
        r ≤ max (channel colors.1 16 : ℚ) (channel colors.2 16 : ℚ) + 1 / 2 ^ 43) ∧
      (0 ≤ g ∧ g ≤ 255 + 1 / 2 ^ 43 ∧
        min (channel colors.1 8 : ℚ) (channel colors.2 8 : ℚ) - 1 / 2 ^ 43 ≤ g ∧
        g ≤ max (channel colors.1 8 : ℚ) (channel colors.2 8 : ℚ) + 1 / 2 ^ 43) ∧
      (0 ≤ b ∧ b ≤ 255 + 1 / 2 ^ 43 ∧
        min (channel colors.1 0 : ℚ) (channel colors.2 0 : ℚ) - 1 / 2 ^ 43 ≤ b ∧
        b ≤ max (channel colors.1 0 : ℚ) (channel colors.2 0 : ℚ) + 1 / 2 ^ 43) ∧
      (f = 1 →
        a = channel colors.1 24 ∧ r = channel colors.1 16 ∧
        g = channel colors.1 8 ∧ b = channel colors.1 0) ∧
      (f = 0 →
        a = channel colors.2 24 ∧ r = channel colors.2 16 ∧
        g = channel colors.2 8 ∧ b = channel colors.2 0) := by
  obtain ⟨a, ha, hab, ha1, ha0⟩ := blend_channel_ieee_bounds colors.1 colors.2 24 f h0 h1
  obtain ⟨r, hr, hrb, hr1, hr0⟩ := blend_channel_ieee_bounds colors.1 colors.2 16 f h0 h1
  obtain ⟨g, hg, hgb, hg1, hg0⟩ := blend_channel_ieee_bounds colors.1 colors.2 8 f h0 h1
  obtain ⟨b, hb, hbb, hb1, hb0⟩ := blend_channel_ieee_bounds colors.1 colors.2 0 f h0 h1
  refine ⟨a, r, g, b, ?_, hab, hrb, hgb, hbb,
    fun h => ⟨ha1 h, hr1 h, hg1 h, hb1 h⟩, fun h => ⟨ha0 h, hr0 h, hg0 h, hb0 h⟩⟩
  rw [add_color_stops_from_blend_ieee_get pattern blend colors i hi, hf, ha, hr, hg, hb]

/-- Witness of C19 as amended: the control point of `tinyFactorBlend` between
two opaque colours, whose factor is 481065 / 2^58. -/
theorem blend_stop_channels_near_witness :
    ((0 : Nat) : Int) < tinyFactorBlend.count ∧
    tinyFactorBlend.factors 0 = IEEE.num (481065 / 2 ^ 58) ∧
    (0 : ℚ) ≤ 481065 / 2 ^ 58 ∧ (481065 / 2 ^ 58 : ℚ) ≤ 1 ∧
    ∃ a r g b : ℚ,
      (add_color_stops_from_blend_ieee [] tinyFactorBlend (0xFF000000, 0xFF0000FF))[
          ([] : List ColorStopIEEE).length + 0]? =
        some { offset := tinyFactorBlend.positions 0, red := IEEE.num r, green := IEEE.num g,
               blue := IEEE.num b, alpha := IEEE.num a } ∧
      (0 ≤ a ∧ a ≤ 255 + 1 / 2 ^ 43 ∧
        min (channel 0xFF000000 24 : ℚ) (channel 0xFF0000FF 24 : ℚ) - 1 / 2 ^ 43 ≤ a ∧
        a ≤ max (channel 0xFF000000 24 : ℚ) (channel 0xFF0000FF 24 : ℚ) + 1 / 2 ^ 43) ∧
      (0 ≤ r ∧ r ≤ 255 + 1 / 2 ^ 43 ∧
        min (channel 0xFF000000 16 : ℚ) (channel 0xFF0000FF 16 : ℚ) - 1 / 2 ^ 43 ≤ r ∧
        r ≤ max (channel 0xFF000000 16 : ℚ) (channel 0xFF0000FF 16 : ℚ) + 1 / 2 ^ 43) ∧
      (0 ≤ g ∧ g ≤ 255 + 1 / 2 ^ 43 ∧
        min (channel 0xFF000000 8 : ℚ) (channel 0xFF0000FF 8 : ℚ) - 1 / 2 ^ 43 ≤ g ∧
        g ≤ max (channel 0xFF000000 8 : ℚ) (channel 0xFF0000FF 8 : ℚ) + 1 / 2 ^ 43) ∧
      (0 ≤ b ∧ b ≤ 255 + 1 / 2 ^ 43 ∧
        min (channel 0xFF000000 0 : ℚ) (channel 0xFF0000FF 0 : ℚ) - 1 / 2 ^ 43 ≤ b ∧
        b ≤ max (channel 0xFF000000 0 : ℚ) (channel 0xFF0000FF 0 : ℚ) + 1 / 2 ^ 43) ∧
      ((481065 / 2 ^ 58 : ℚ) = 1 →
        a = channel 0xFF000000 24 ∧ r = channel 0xFF000000 16 ∧
        g = channel 0xFF000000 8 ∧ b = channel 0xFF000000 0) ∧
      ((481065 / 2 ^ 58 : ℚ) = 0 →
        a = channel 0xFF0000FF 24 ∧ r = channel 0xFF0000FF 16 ∧
        g = channel 0xFF0000FF 8 ∧ b = channel 0xFF0000FF 0) :=
  ⟨by decide, rfl, by norm_num, by norm_num,
    blend_stop_channels_near [] tinyFactorBlend (0xFF000000, 0xFF0000FF) 0 (481065 / 2 ^ 58)
      (by decide) rfl (by norm_num) (by norm_num)⟩

/-- C21, counterexample.  With the points (0, NaN) and (1, 0) the comparisons
with NaN are all false, so `gdip_set_rect` stores the `y` of whichever point
comes second: Y is 0 in one order and NaN in the other. -/
theorem gdip_set_rect_order_matters_with_nan :
    (gdip_set_rect_ieee (some zeroRectIEEE) (IEEE.num 0) IEEE.nan (IEEE.num 1) (IEEE.num 0)).map
        (fun q => q.Y) = some (IEEE.num 0) ∧
    (gdip_set_rect_ieee (some zeroRectIEEE) (IEEE.num 1) (IEEE.num 0) (IEEE.num 0) IEEE.nan).map
        (fun q => q.Y) = some IEEE.nan ∧
    gdip_set_rect_ieee (some zeroRectIEEE) (IEEE.num 0) IEEE.nan (IEEE.num 1) (IEEE.num 0)
      ≠ gdip_set_rect_ieee (some zeroRectIEEE) (IEEE.num 1) (IEEE.num 0) (IEEE.num 0) IEEE.nan := by
  have e1 : IEEE.equal (IEEE.num 0) (IEEE.num 1) = false := by simp [IEEE.equal]
  have e2 : IEEE.equal (IEEE.num 1) (IEEE.num 0) = false := by simp [IEEE.equal]
  have e3 : IEEE.equal IEEE.nan (IEEE.num 0) = false := rfl
  have e4 : IEEE.equal (IEEE.num 0) IEEE.nan = false := rfl
  have l1 : IEEE.lt IEEE.nan (IEEE.num 0) = false := rfl
  have l2 : IEEE.lt (IEEE.num 0) IEEE.nan = false := rfl
  have h1 : (gdip_set_rect_ieee (some zeroRectIEEE) (IEEE.num 0) IEEE.nan (IEEE.num 1) (IEEE.num 0)).map
      (fun q => q.Y) = some (IEEE.num 0) := by
    unfold gdip_set_rect_ieee
    simp only [e1, e3, l1, if_false, Bool.false_eq_true, Option.map_some']
  have h2 : (gdip_set_rect_ieee (some zeroRectIEEE) (IEEE.num 1) (IEEE.num 0) (IEEE.num 0) IEEE.nan).map
      (fun q => q.Y) = some IEEE.nan := by
    unfold gdip_set_rect_ieee
    simp only [e2, e4, l2, if_false, Bool.false_eq_true, Option.map_some']
  refine ⟨h1, h2, ?_⟩
  intro h
  rw [h, h2] at h1
  exact absurd h1 (by simp)

/-- C21, amended.  For coordinates none of which is NaN, `gdip_set_rect` does
not depend on the order of the two endpoints: `gdip_set_rect(x1, y1, x2, y2)`
and `gdip_set_rect(x2, y2, x1, y1)` store the same `X`, `Y`, `Width` and
`Height` (a zero of either sign counted as the same number). -/
theorem gdip_set_rect_ieee_symmetric (rect : Option GpRectFIEEE) (x1 y1 x2 y2 : IEEE)
    (hx1 : x1 ≠ IEEE.nan) (hy1 : y1 ≠ IEEE.nan) (hx2 : x2 ≠ IEEE.nan)
    (hy2 : y2 ≠ IEEE.nan) :
    gdip_set_rect_ieee rect x1 y1 x2 y2 = gdip_set_rect_ieee rect x2 y2 x1 y1 := by
  cases rect with
  | none => rfl
  | some r =>
    unfold gdip_set_rect_ieee
    simp only [ieee_equal_comm x2 x1, ieee_equal_comm y2 y1]
    by_cases hx : IEEE.equal x1 x2 = true
    · have hxe := ieee_eq_of_equal x1 x2 hx
      subst hxe
      simp only [hx, if_true]
      rw [ieee_absdiff_comm binary32 y1 y2 hy1 hy2, ieee_min_comm y1 y2 hy1 hy2]
    · rw [Bool.not_eq_true] at hx
      by_cases hy : IEEE.equal y1 y2 = true
      · have hye := ieee_eq_of_equal y1 y2 hy
        subst hye
        simp only [hx, hy, if_true, if_false, Bool.false_eq_true]
        rw [ieee_absdiff_comm binary32 x1 x2 hx1 hx2, ieee_min_comm x1 x2 hx1 hx2]
      · rw [Bool.not_eq_true] at hy
        simp only [hx, hy, if_false, Bool.false_eq_true]
        rw [ieee_absdiff_comm binary32 x1 x2 hx1 hx2, ieee_min_comm x1 x2 hx1 hx2,
          ieee_absdiff_comm binary32 y1 y2 hy1 hy2, ieee_min_comm y1 y2 hy1 hy2]

/-- Witness of C21 as amended: the points (0, 0) and (10, 10). -/
theorem gdip_set_rect_ieee_symmetric_witness :
    IEEE.num 0 ≠ IEEE.nan ∧ IEEE.num 10 ≠ IEEE.nan ∧
    gdip_set_rect_ieee (some zeroRectIEEE) (IEEE.num 0) (IEEE.num 0) (IEEE.num 10)
        (IEEE.num 10)
      = gdip_set_rect_ieee (some zeroRectIEEE) (IEEE.num 10) (IEEE.num 10) (IEEE.num 0)
        (IEEE.num 0) :=
  ⟨by simp, by simp,
    gdip_set_rect_ieee_symmetric _ (IEEE.num 0) (IEEE.num 0) (IEEE.num 10) (IEEE.num 10)
      (by simp) (by simp) (by simp) (by simp)⟩

/-! ## The setters and the constructors over allocated storage -/

/-- C1, the code at a failing input.  On a brush whose blend curve owns its
arrays, `GdipSetLinePresetBlend` returns `Ok` and leaves the curve disabled
(count -1) with its two arrays released and their addresses still in the
brush.  `GdipSetLineBlend` called next with count 2 takes the branch for a
changed count and hands those two addresses to `GdipFree` again: the call has
no result when the allocator returns new addresses (31, 32), and none either
when it returns the released ones (11, 12), the stores then going through
storage the call has itself released.  On the brush whose curve still owns
its arrays the same call returns `Ok`. -/
theorem GdipSetLineBlend_releases_twice :
    (GdipSetLinePresetBlend_at curveHeap (some curveBrushAt) (some twoColors)
        (some twoOffsets) 2 21 22 zeroColors zeroFloats).map
      (fun r => (r.2.1, r.2.2.map (fun b => (b.blend, b.presetColors))))
      = some (Ok, some (⟨11, 12, -1⟩, ⟨21, 22, 2⟩)) ∧
    (GdipSetLinePresetBlend_at curveHeap (some curveBrushAt) (some twoColors)
        (some twoOffsets) 2 21 22 zeroColors zeroFloats).bind
      (fun r => (GdipSetLineBlend_at r.1 r.2.2 (some twoOffsets) (some twoOffsets) 2 31 32
        zeroFloats).map (fun r => r.2.1)) = none ∧
    (GdipSetLinePresetBlend_at curveHeap (some curveBrushAt) (some twoColors)
        (some twoOffsets) 2 21 22 zeroColors zeroFloats).bind
      (fun r => (GdipSetLineBlend_at r.1 r.2.2 (some twoOffsets) (some twoOffsets) 2 11 12
        zeroFloats).map (fun r => r.2.1)) = none ∧
    (GdipSetLineBlend_at curveHeap (some curveBrushAt) (some twoOffsets) (some twoOffsets) 2
        31 32 zeroFloats).map
      (fun r => (r.2.1, r.2.2.map (fun b => (b.blend, b.presetColors))))
      = some (Ok, some (⟨31, 32, 2⟩, ⟨0, 0, -1⟩)) := by
  refine ⟨?_, ?_, ?_, ?_⟩ <;> rfl

/-- C2, the code at a failing input.  `GdipSetLinePresetBlend` with a changed
count hands `presetColors->colors` and `presetColors->positions` to `GdipFree`
whatever they hold.  On a brush whose ramp pointers were never assigned and
hold the addresses of no block (77, 78) the call has no result.  And after
`GdipSetLinePresetBlend` (count 2) and `GdipSetLineBlend` (count 0, the
allocator returning the addresses 11 and 12 just released) have both returned
`Ok`, the ramp is disabled with its arrays released, and a third call,
`GdipSetLinePresetBlend` with count 2, releases them again and has no
result. -/
theorem GdipSetLinePresetBlend_releases_unowned :
    GdipSetLinePresetBlend_at curveHeap (some freshBrushAt) (some twoColors)
        (some twoOffsets) 2 21 22 zeroColors zeroFloats = none ∧
    ((GdipSetLinePresetBlend_at curveHeap (some curveBrushAt) (some twoColors)
        (some twoOffsets) 2 21 22 zeroColors zeroFloats).bind
      (fun r => GdipSetLineBlend_at r.1 r.2.2 (some twoOffsets) (some twoOffsets) 0 11 12
        zeroFloats)).map
      (fun r => (r.2.1, r.2.2.map (fun b => (b.blend, b.presetColors))))
      = some (Ok, some (⟨11, 12, 0⟩, ⟨21, 22, -1⟩)) ∧
    (((GdipSetLinePresetBlend_at curveHeap (some curveBrushAt) (some twoColors)
        (some twoOffsets) 2 21 22 zeroColors zeroFloats).bind
      (fun r => GdipSetLineBlend_at r.1 r.2.2 (some twoOffsets) (some twoOffsets) 0 11 12
        zeroFloats)).bind
      (fun r => (GdipSetLinePresetBlend_at r.1 r.2.2 (some twoColors) (some twoOffsets) 2
        41 42 zeroColors zeroFloats).map (fun r => r.2.1))) = none := by
  refine ⟨?_, ?_, ?_⟩ <;> rfl

/-- C12, the code at a failing input.  `GdipCreateLineBrushFromRect` reaches
`gdip_linear_gradient_init` through `GdipCreateLineBrushFromRectWithAngle`, and
that function stores through the never-assigned `blend->factors` (the defect
of C11): whatever the rectangle, the colours, the orientation and the wrap
mode, on a fresh blend block whose two pointer fields are null (zero-filled
storage) the constructor has no result, so no brush with the claimed angle is
produced.  Where the two fields happen to hold addresses of allocated floats
(64 and 68) the vertical orientation does give `Ok`, angle 90 and
`isAngleScalable` false, and the same result as
`GdipCreateLineBrushFromRectWithAngle` with angle 90. -/
theorem GdipCreateLineBrushFromRect_at_null_blend (heap : Heap) (rect : GpRectFIEEE)
    (color1 color2 : ARGB) (mode : LinearGradientMode) (wrapMode : GpWrapMode)
    (slot : Option GpLineGradientAt) (result : GpLineGradientAt)
    (presetColors : InterpolationColorsAt) (count : Int) (rectangle : Option GpRectFIEEE) :
    GdipCreateLineBrushFromRect_at heap (some rect) color1 color2 mode wrapMode (some slot)
        (some result) presetColors ⟨0, 0, count⟩ rectangle = none ∧
    (GdipCreateLineBrushFromRect_at luckyHeap (some rect) color1 color2
        LinearGradientModeVertical wrapMode (some slot) (some result) presetColors
        ⟨64, 68, count⟩ (some rect)).map
      (fun r => (r.2.1, (r.2.2.bind id).map (fun b => (b.angle, b.isAngleScalable))))
      = some (Ok, some (IEEE.num 90, false)) ∧
    GdipCreateLineBrushFromRect_at luckyHeap (some rect) color1 color2
        LinearGradientModeVertical wrapMode (some slot) (some result) presetColors
        ⟨64, 68, count⟩ (some rect)
      = GdipCreateLineBrushFromRectWithAngle_at luckyHeap (some rect) color1 color2
        (IEEE.num 90) false wrapMode (some slot) (some result) presetColors ⟨64, 68, count⟩
        (some rect) :=
  ⟨rfl, rfl, rfl⟩

/-- C13, the code at a failing input.  `GdipCreateLineBrushFromRectWithAngle`
calls `gdip_linear_gradient_init`, which stores through the never-assigned
`blend->factors` (the defect of C11): whatever the rectangle and the angle, on
a fresh blend block whose two pointer fields are null (zero-filled storage) the
constructor has no result instead of `Ok` and a brush.  Where the two fields
happen to hold addresses of allocated floats (64 and 68) it returns `Ok` with
the rectangle stored as supplied and returned by `GdipGetLineRect`, and the
axis at the `float` values of `Y + Height / 2` and `X + Width`: for the
rectangle (1, 2, 30, 40) the points (1, 22) and (31, 22), and for the rectangle
at X = 1 of width 33554432 the end point X = 33554432, the sum 33554433 not
being a `float`. -/
theorem GdipCreateLineBrushFromRectWithAngle_at_null_blend (heap : Heap)
    (rect : GpRectFIEEE) (color1 color2 : ARGB) (angle : IEEE) (isAngleScalable : Bool)
    (wrapMode : GpWrapMode) (slot : Option GpLineGradientAt) (result : GpLineGradientAt)
    (presetColors : InterpolationColorsAt) (count : Int) (rectangle : Option GpRectFIEEE)
    (out : GpRectFIEEE) :
    GdipCreateLineBrushFromRectWithAngle_at heap (some rect) color1 color2 angle
        isAngleScalable wrapMode (some slot) (some result) presetColors ⟨0, 0, count⟩
        rectangle = none ∧
    (GdipCreateLineBrushFromRectWithAngle_at luckyHeap (some rect) color1 color2 angle
        isAngleScalable wrapMode (some slot) (some result) presetColors ⟨64, 68, count⟩
        (some rect)).map
      (fun r => (r.2.1, (r.2.2.bind id).map
        (fun b => (b.rectangle, GdipGetLineRect_at (some b) (some out), b.points))))
      = some (Ok, some (some rect, some (Ok, some rect),
          (⟨rect.X, IEEE.add binary32 rect.Y (IEEE.div binary32 rect.Height (IEEE.num 2))⟩,
           ⟨IEEE.add binary32 rect.X rect.Width,
            IEEE.add binary32 rect.Y (IEEE.div binary32 rect.Height (IEEE.num 2))⟩))) ∧
    (GdipCreateLineBrushFromRectWithAngle_at luckyHeap (some sampleRectIEEE) color1 color2
        angle isAngleScalable wrapMode (some slot) (some result) presetColors
        ⟨64, 68, count⟩ (some sampleRectIEEE)).map
      (fun r => (r.2.2.bind id).map (fun b => b.points))
      = some (some (⟨IEEE.num 1, IEEE.num 22⟩, ⟨IEEE.num 31, IEEE.num 22⟩)) ∧
    (GdipCreateLineBrushFromRectWithAngle_at luckyHeap (some wideRectIEEE) color1 color2
        angle isAngleScalable wrapMode (some slot) (some result) presetColors
        ⟨64, 68, count⟩ (some wideRectIEEE)).map
      (fun r => (r.2.2.bind id).map (fun b => b.points.2.X))
      = some (some (IEEE.num 33554432)) := by
  have h20 : IEEE.div binary32 (IEEE.num 40) (IEEE.num 2) = IEEE.num 20 := by
    simp only [IEEE.div]
    rw [if_neg (by norm_num : ¬ (2 : ℚ) = 0)]
    exact binary32.round_exact _ _ 20 0 (by norm_num) (by norm_num) (by norm_num [binary32])
      (by decide) (by norm_num [binary32])
  have h22 : IEEE.add binary32 (IEEE.num 2) (IEEE.num 20) = IEEE.num 22 :=
    binary32.round_exact _ _ 22 0 (by norm_num) (by norm_num) (by norm_num [binary32])
      (by decide) (by norm_num [binary32])
  have h31 : IEEE.add binary32 (IEEE.num 1) (IEEE.num 30) = IEEE.num 31 :=
    binary32.round_exact _ _ 31 0 (by norm_num) (by norm_num) (by norm_num [binary32])
      (by decide) (by norm_num [binary32])
  have hw : IEEE.add binary32 (IEEE.num 1) (IEEE.num 33554432) = IEEE.num 33554432 :=
    binary32.round_eq _ _ 25 8388608 (by norm_num) (by norm_num) (by norm_num) (by decide)
      (by norm_num [binary32, abs_lt]) (by norm_num [binary32]) (by norm_num [binary32])
  refine ⟨rfl, rfl, ?_, ?_⟩
  · show some (some ((⟨IEEE.num 1, IEEE.add binary32 (IEEE.num 2)
        (IEEE.div binary32 (IEEE.num 40) (IEEE.num 2))⟩ : GpPointFIEEE),
      (⟨IEEE.add binary32 (IEEE.num 1) (IEEE.num 30), IEEE.add binary32 (IEEE.num 2)
        (IEEE.div binary32 (IEEE.num 40) (IEEE.num 2))⟩ : GpPointFIEEE)))
      = some (some (⟨IEEE.num 1, IEEE.num 22⟩, ⟨IEEE.num 31, IEEE.num 22⟩))
    rw [h20, h22, h31]
  · show some (some (IEEE.add binary32 (IEEE.num 1) (IEEE.num 33554432)))
      = some (some (IEEE.num 33554432))
    rw [hw]

end LinearGradient
